import Mathlib

/-
Shallow embedding of the Minecraft updates catalogue application: the main
app module (mode buttons, view toggle, URL/localStorage state restoration),
the DataManager (filtering, year grouping, growth aggregation) and the Utils
date helpers, together with proofs about the spec's claims.

JavaScript semantics are modelled as follows.
- Array.prototype.sort with comparator cmp is a stable sort placing a before
  b when cmp a b is nonpositive; it is modelled by List.insertionSort on the
  relation cmp a b <= 0, which is stable by construction and, by uniqueness
  of stable sorting under a total preorder, agrees with every stable sort.
- Date parsing (new Date) is modelled for the grammars the dataset uses:
  null, bare 4-digit year strings (handled by the year-only branch of
  Utils.parseDate) and ISO YYYY-MM-DD date-only strings; other string
  formats are treated as parse failures. A UTC runtime is assumed, so
  getFullYear reads the calendar year of the parsed date.
- new Date(year, 11, 31) applies ECMAScript's two-digit year rule: an
  integer year between 0 and 99 denotes 1900 + year.
- getTime values are only ever compared against each other, so dates are
  keyed by an order-isomorphic numeral year*10000 + month*100 + day.
-/

set_option maxHeartbeats 1000000

namespace MCUpdates

/-- Code points 0x30 to 0x39: the characters matched by the regex class [0-9]. -/
def isDig (c : Char) : Bool := 48 ≤ c.toNat && c.toNat ≤ 57

/-- Numeric value of a decimal digit character. -/
def digitVal (c : Char) : Nat := c.toNat - 48

/-- Whitespace trimming on both ends, modelling String.prototype.trim. -/
def trimChars (l : List Char) : List Char :=
  ((l.dropWhile Char.isWhitespace).reverse.dropWhile Char.isWhitespace).reverse

/-- Calendar date as produced by the modelled Date parses (UTC reading). -/
structure JSDate where
  year : Nat
  month : Nat
  day : Nat
deriving DecidableEq, Repr

/-- Gregorian leap-year rule used by ECMAScript dates. -/
def isLeap (y : Nat) : Bool := (y % 4 == 0 && y % 100 != 0) || y % 400 == 0

/-- Days in a month of the proleptic Gregorian calendar. -/
def daysInMonth (y m : Nat) : Nat :=
  if m == 2 then (if isLeap y then 29 else 28)
  else if m == 4 || m == 6 || m == 9 || m == 11 then 30
  else 31

/-- Parse of an ISO YYYY-MM-DD date-only string, the full-date grammar used
by the dataset; anything else is a parse failure (Invalid Date). -/
def parseFullDate (s : String) : Option JSDate :=
  match s.data with
  | [y1, y2, y3, y4, '-', m1, m2, '-', d1, d2] =>
    if isDig y1 && isDig y2 && isDig y3 && isDig y4 &&
       isDig m1 && isDig m2 && isDig d1 && isDig d2 then
      let y := 1000 * digitVal y1 + 100 * digitVal y2 + 10 * digitVal y3 + digitVal y4
      let m := 10 * digitVal m1 + digitVal m2
      let d := 10 * digitVal d1 + digitVal d2
      if 1 ≤ m && m ≤ 12 && 1 ≤ d && d ≤ daysInMonth y m then some ⟨y, m, d⟩ else none
    else none
  | _ => none

/-- Utils.isYearOnly: the trimmed string consists of exactly four decimal
digits (the regex test on dateString.trim()). -/
def isYearOnly (s : String) : Bool :=
  let t := trimChars s.data
  t.length == 4 && t.all isDig

/-- Numeric value parseInt reads from a year-only date string (leading
whitespace skipped, then the digit run). -/
def yearVal (s : String) : Nat :=
  (trimChars s.data).foldl (fun a c => 10 * a + digitVal c) 0

/-- ECMAScript two-digit year rule of the Date(year, month, day)
constructor: years 0 to 99 denote 1900 + year. -/
def twoDigitYearFix (n : Nat) : Nat := if n ≤ 99 then 1900 + n else n

/-- Utils.parseDate: null and the empty string are falsy and yield null; a
bare 4-digit year string becomes December 31 of that year via
new Date(parseInt(s), 11, 31); any other string goes through new Date(s). -/
def parseDate (dateString : Option String) : Option JSDate :=
  match dateString with
  | none => none
  | some s =>
    if s.data = [] then none
    else if isYearOnly s then some ⟨twoDigitYearFix (yearVal s), 12, 31⟩
    else parseFullDate s

/-- Order-isomorphic stand-in for Date.prototype.getTime on the modelled
dates: comparisons of getTime values coincide with comparisons of this key. -/
def timeKey (d : JSDate) : Nat := d.year * 10000 + d.month * 100 + d.day

/-- One content addition (block, item, mob, ...) as stored in the dataset. -/
structure Item where
  name : Option String := none
  display_name : Option String := none
  identifier : Option String := none
  types : List String := []
  tags : List String := []
deriving DecidableEq, Repr

/-- The content-type keys iterated by DataManager.CONTENT_TYPES. The
SECTION_TYPES source file is absent from the provided sources; the key set
is reconstructed from the visibility map of DataManager.getFilteredData,
which enumerates these ten types. -/
inductive ContentType where
  | blocks | items | mobs | mob_variants | effects
  | enchantments | advancements | paintings | biomes | structures
deriving DecidableEq, Repr

/-- The per-content-type arrays of an update record (its added object). -/
structure Added where
  blocks : List Item := []
  items : List Item := []
  mobs : List Item := []
  mob_variants : List Item := []
  effects : List Item := []
  enchantments : List Item := []
  advancements : List Item := []
  paintings : List Item := []
  biomes : List Item := []
  structures : List Item := []
deriving DecidableEq, Repr

/-- Array lookup added[type]. -/
def Added.get (a : Added) : ContentType → List Item
  | .blocks => a.blocks
  | .items => a.items
  | .mobs => a.mobs
  | .mob_variants => a.mob_variants
  | .effects => a.effects
  | .enchantments => a.enchantments
  | .advancements => a.advancements
  | .paintings => a.paintings
  | .biomes => a.biomes
  | .structures => a.structures

/-- Build an added object field by field. -/
def Added.ofFun (f : ContentType → List Item) : Added :=
  { blocks := f .blocks, items := f .items, mobs := f .mobs,
    mob_variants := f .mob_variants, effects := f .effects,
    enchantments := f .enchantments, advancements := f .advancements,
    paintings := f .paintings, biomes := f .biomes, structures := f .structures }

/-- One update record of the dataset. release_date is null for upcoming
versions, a bare year string, or a full date string. -/
structure UpdateRecord where
  name : Option String := none
  display_name : Option String := none
  release_version_java : Option String := none
  release_date : Option String := none
  added : Added := {}
deriving DecidableEq, Repr

/-- The load-time sort comparator of MinecraftUpdatesApp.init: upcoming
records (null release_date) first, then year-only dates by numeric year
descending, then full dates by parsed date descending (newest first). -/
def cmpUpdates (a b : UpdateRecord) : Int :=
  match a.release_date, b.release_date with
  | none, some _ => -1
  | some _, none => 1
  | none, none => 0
  | some sa, some sb =>
    if isYearOnly sa && !(isYearOnly sb) then -1
    else if !(isYearOnly sa) && isYearOnly sb then 1
    else if isYearOnly sa && isYearOnly sb then (yearVal sb : Int) - (yearVal sa : Int)
    else
      match parseDate (some sa), parseDate (some sb) with
      | none, none => 0
      | none, some _ => -1
      | some _, none => 1
      | some da, some db => (timeKey db : Int) - (timeKey da : Int)

/-- Acceptance relation of the load-time comparator: a may stay before b. -/
def cmpLeRel (a b : UpdateRecord) : Prop := cmpUpdates a b ≤ 0

instance : DecidableRel cmpLeRel := fun _ _ => Int.decLe _ _

/-- updatesData.sort(comparator): a stable sort placing a before b when the
comparator result is nonpositive. Array.prototype.sort is stable, and a
stable sort by a total preorder is unique, so insertion sort (stable by
construction) models it. -/
def sortUpdates (l : List UpdateRecord) : List UpdateRecord :=
  l.insertionSort cmpLeRel

/-- Total ordering key equivalent to the comparator: partition rank times
10^10 plus an inner component that inverts the within-partition descending
orders. -/
def sortKey (r : UpdateRecord) : Int :=
  match r.release_date with
  | none => 0
  | some s =>
    if isYearOnly s then 10000000000 + 100000 - (yearVal s : Int)
    else
      match parseDate (some s) with
      | none => 20000000000
      | some d => 20000000000 + 1000000000 - (timeKey d : Int)

/-- Lowercasing of a character, modelling String.prototype.toLowerCase on
the ASCII range the dataset uses. -/
def lowerCh (c : Char) : Char :=
  if 65 ≤ c.toNat && c.toNat ≤ 90 then Char.ofNat (c.toNat + 32) else c

/-- String.prototype.toLowerCase. -/
def jsToLower (s : String) : String := String.mk (s.data.map lowerCh)

/-- String.prototype.includes: sub occurs contiguously in hay. -/
def jsIncludes (hay sub : String) : Bool :=
  (List.range (hay.data.length + 1)).any (fun i => sub.data.isPrefixOf (hay.data.drop i))

/-- Characters kept by the tag cleanup replace(/[^\w-]/g, ''): word
characters and the dash. -/
def wordOrDash (c : Char) : Bool :=
  isDig c || (97 ≤ c.toNat && c.toNat ≤ 122) || (65 ≤ c.toNat && c.toNat ≤ 90) ||
    c == '_' || c == '-'

/-- Split into the nonempty runs between whitespace, modelling
trimmed.split(/\s+/) (which yields no empty tokens on a trimmed nonempty
string, and whose single empty token on the empty string contributes
nothing downstream). -/
def splitWs (l : List Char) : List (List Char) :=
  (l.splitOnP Char.isWhitespace).filter (fun t => !t.isEmpty)

/-- Result of DataManager.parseSearchQuery. -/
structure ParsedQuery where
  text : String
  tags : List String
deriving DecidableEq, Repr

/-- Tag contributed by a token: a leading hash, then the token with all
non-word non-dash characters removed, kept only when nonempty. -/
def tagOfToken (t : List Char) : Option String :=
  match t with
  | '#' :: rest =>
    let tag := rest.filter wordOrDash
    if tag.isEmpty then none else some (String.mk tag)
  | _ => none

/-- Whether a token starts with the tag marker hash. -/
def isTagToken (t : List Char) : Bool :=
  match t with
  | '#' :: _ => true
  | _ => false

/-- DataManager.parseSearchQuery: lowercase, trim, split on whitespace;
hash-prefixed tokens become tags, the rest are rejoined with single spaces. -/
def parseSearchQuery (query : String) : ParsedQuery :=
  if query.data = [] then { text := "", tags := [] }
  else
    let toks := splitWs (trimChars (jsToLower query).data)
    { text := String.intercalate " " ((toks.filter (fun t => !isTagToken t)).map String.mk),
      tags := toks.filterMap tagOfToken }

/-- DataManager.filterItems (tag-aware variant): an item passes when the
query text is empty or occurs in its lowercased name or identifier, and
every query tag is among its lowercased types and tags; with
removeDuplicates set, items whose types include hidden are then dropped.
Missing arrays are modelled as empty lists, matching the null guard. -/
def filterItems (items : List Item) (query : String) (removeDuplicates : Bool) : List Item :=
  let parsed := parseSearchQuery query
  let filtered := items.filter (fun item =>
    let displayName := jsToLower (item.name.getD "")
    let identifier := jsToLower (item.identifier.getD "")
    let allTags := (item.types.map jsToLower) ++ (item.tags.map jsToLower)
    let matchesText :=
      if parsed.text.data = [] then true
      else jsIncludes displayName parsed.text || jsIncludes identifier parsed.text
    let matchesTags := parsed.tags.all (fun tag => allTags.contains tag)
    matchesText && matchesTags)
  if removeDuplicates then
    filtered.filter (fun item => !(item.types.contains "hidden"))
  else filtered

/-- DataManager.filterAllContentTypes: filterItems applied to every
content-type array of the entry. -/
def filterAllContentTypes (entry : UpdateRecord) (query : String) (removeDuplicates : Bool) : Added :=
  Added.ofFun (fun t => filterItems (entry.added.get t) query removeDuplicates)

/-- The record-shaped filtering used at every call site of
filterAllContentTypes: the entry spread with the filtered added object. -/
def filterRecord (r : UpdateRecord) (query : String) (removeDuplicates : Bool) : UpdateRecord :=
  { r with added := filterAllContentTypes r query removeDuplicates }

/-- A synthetic per-year aggregate entry as built by DataManager.groupByYear. -/
structure YearGroup where
  name : String
  type : String
  added : Added
deriving DecidableEq, Repr

/-- Year key a record contributes to: getFullYear of its parsed release
date, except that the falsy test if (!year) drops the numeric year 0 along
with null. -/
def recYear (r : UpdateRecord) : Option Nat :=
  match parseDate r.release_date with
  | none => none
  | some d => if d.year = 0 then none else some d.year

/-- Descending order on the numeric year keys, the acceptance relation of
the sort((a, b) => b.name - a.name) comparator. -/
def natGeRel (a b : Nat) : Prop := b ≤ a

instance : DecidableRel natGeRel := fun a b => Nat.decLe b a

/-- The distinct year keys of the byYear accumulator object, sorted
descending as the final sort((a, b) => b.name - a.name) orders them. -/
def yearKeysDesc (updates : List UpdateRecord) : List Nat :=
  ((updates.filterMap recYear).dedup).insertionSort natGeRel

/-- The group accumulated for one year key: the in-order concatenation of
the matching records' content-type arrays. -/
def yearGroupOf (updates : List UpdateRecord) (y : Nat) : YearGroup :=
  { name := Nat.repr y, type := "year",
    added := Added.ofFun (fun t =>
      (updates.filter (fun r => recYear r = some y)).flatMap (fun r => r.added.get t)) }

/-- DataManager.groupByYear: one group per distinct year key. Object.values
enumerates the integer-string keys in ascending numeric order and the
result is then sorted descending by numeric name, so the output is the
distinct years sorted descending, independent of insertion order. -/
def groupByYear (updates : List UpdateRecord) : List YearGroup :=
  (yearKeysDesc updates).map (yearGroupOf updates)

/-- Chart data produced by the growth aggregations. -/
structure Growth where
  labels : List String
  blocks : List Nat
  items : List Nat
  mobs : List Nat
  effects : List Nat
deriving DecidableEq, Repr

/-- Chart label of a record: release_version.java, falling back to name;
the undefined produced when both are absent is modelled by a placeholder. -/
def versionLabel (u : UpdateRecord) : String :=
  match u.release_version_java with
  | some v => v
  | none => u.name.getD "undefined"

/-- The accumulator loop of DataManager.getGrowthByVersion. -/
def growthGo (tb ti tm te : Nat) : List UpdateRecord → Growth
  | [] => { labels := [], blocks := [], items := [], mobs := [], effects := [] }
  | u :: rest =>
    let tb := tb + u.added.blocks.length
    let ti := ti + u.added.items.length
    let tm := tm + u.added.mobs.length
    let te := te + u.added.effects.length
    let g := growthGo tb ti tm te rest
    { labels := versionLabel u :: g.labels, blocks := tb :: g.blocks,
      items := ti :: g.items, mobs := tm :: g.mobs, effects := te :: g.effects }

/-- DataManager.getGrowthByVersion: running sums of the per-record counts,
accumulated in the order of the input list. -/
def getGrowthByVersion (updates : List UpdateRecord) : Growth :=
  growthGo 0 0 0 0 updates

/-- Per-year total of one content type, the final value accumulated into
byYear for that year by DataManager.getGrowthByYear. -/
def yearTypeCount (updates : List UpdateRecord) (y : Nat) (t : ContentType) : Nat :=
  ((updates.filter (fun r => recYear r = some y)).map (fun r => (r.added.get t).length)).sum

/-- The UTF-16 string order of the decimal forms of two year keys, the
order Array.prototype.sort applies to Object.keys by default. -/
def reprLeRel (a b : Nat) : Prop := Nat.repr a ≤ Nat.repr b

instance : DecidableRel reprLeRel := fun a b => inferInstanceAs (Decidable (Nat.repr a ≤ Nat.repr b))

/-- Object.keys(byYear).sort(): the distinct year keys in the default sort
order of their decimal string forms. -/
def sortedYearKeys (updates : List UpdateRecord) : List Nat :=
  ((updates.filterMap recYear).dedup).insertionSort reprLeRel

/-- The accumulator loop of DataManager.getGrowthByYear over the sorted
year labels. -/
def growthYearGo (updates : List UpdateRecord) (tb ti tm te : Nat) : List Nat → Growth
  | [] => { labels := [], blocks := [], items := [], mobs := [], effects := [] }
  | y :: rest =>
    let tb := tb + yearTypeCount updates y .blocks
    let ti := ti + yearTypeCount updates y .items
    let tm := tm + yearTypeCount updates y .mobs
    let te := te + yearTypeCount updates y .effects
    let g := growthYearGo updates tb ti tm te rest
    { labels := Nat.repr y :: g.labels, blocks := tb :: g.blocks,
      items := ti :: g.items, mobs := tm :: g.mobs, effects := te :: g.effects }

/-- DataManager.getGrowthByYear: per-year totals accumulated over the
string-sorted year labels. -/
def getGrowthByYear (updates : List UpdateRecord) : Growth :=
  growthYearGo updates 0 0 0 0 (sortedYearKeys updates)

/-- Utils.generateCardId sanitisation: non-alphanumeric characters become
dashes and an id starting with a digit receives the id- literal. -/
def sanitizeId (s : String) : String :=
  let cleaned := String.mk (s.data.map (fun c =>
    if isDig c || (65 ≤ c.toNat && c.toNat ≤ 90) || (97 ≤ c.toNat && c.toNat ≤ 122)
    then c else '-'))
  match cleaned.data with
  | c :: _ => if isDig c then "id-" ++ cleaned else cleaned
  | [] => cleaned

/-- Utils.generateCardId: display_name, else name, else the java release
version; the timestamp-based fallback used when all are absent is modelled
by a fixed placeholder (never exercised by the claims). -/
def generateCardId (display_name name version : Option String) : String :=
  sanitizeId (((display_name.orElse fun _ => name).orElse fun _ => version).getD "year-0")

/-- Card id of an update record. -/
def UpdateRecord.cardId (r : UpdateRecord) : String :=
  generateCardId r.display_name r.name r.release_version_java

/-- Card id of a year group (its only id source is its name). -/
def YearGroup.cardId (g : YearGroup) : String :=
  generateCardId none (some g.name) none

/-- The two dataset views. The CONFIG source file is absent from the
provided sources; the literal values versions and years are modelled from
the spec's URL parameter enumeration, consistently with every comparison
site in the main module. -/
inductive View where
  | versions | years
deriving DecidableEq, Repr

/-- URL and storage string form of a view. -/
def viewStr : View → String
  | .versions => "versions"
  | .years => "years"

/-- Detail target kind, the detailType strings year and version. -/
inductive DetailType where
  | version | year
deriving DecidableEq, Repr

/-- detailReturnContext values recorded by DetailViewManager.open. -/
inductive ReturnCtx where
  | list | stats | compare
deriving DecidableEq, Repr

/-- The mode-machine slice of the application state, with the record list
needed by the detail-open resolution. -/
structure ModeState where
  currentView : View := .versions
  isCompareMode : Bool := false
  isStatsMode : Bool := false
  isTimeSinceMode : Bool := false
  isMaterialGroupsMode : Bool := false
  isDetailMode : Bool := false
  detailTarget : Option (DetailType × String) := none
  detailReturnContext : ReturnCtx := .list
  allUpdates : List UpdateRecord := []
deriving DecidableEq, Repr

/-- Number of mode flags that are set; the spec's exclusivity invariant
says this never exceeds one. -/
def modeFlagCount (s : ModeState) : Nat :=
  (if s.isCompareMode then 1 else 0) + (if s.isStatsMode then 1 else 0) +
  (if s.isTimeSinceMode then 1 else 0) + (if s.isMaterialGroupsMode then 1 else 0) +
  (if s.isDetailMode then 1 else 0)

/-- The compare button click handler: toggles isCompareMode and, when
enabling, clears the stats, time-since and detail flags (the
material-groups flag is not touched). -/
def compareClick (s : ModeState) : ModeState :=
  let willEnable := !s.isCompareMode
  let s := { s with isCompareMode := willEnable }
  if willEnable then
    { s with isStatsMode := false, isTimeSinceMode := false, isDetailMode := false,
             detailTarget := none, detailReturnContext := .list }
  else s

/-- The stats button click handler: toggles isStatsMode and, when enabling,
clears the compare, time-since and detail flags (the material-groups flag
is not touched). -/
def statsClick (s : ModeState) : ModeState :=
  let willEnable := !s.isStatsMode
  let s := { s with isStatsMode := willEnable }
  if willEnable then
    { s with isCompareMode := false, isTimeSinceMode := false, isDetailMode := false,
             detailTarget := none, detailReturnContext := .list }
  else s

/-- The time-since button click handler: toggles isTimeSinceMode and, when
enabling, clears the four other mode flags. -/
def timeSinceClick (s : ModeState) : ModeState :=
  let willEnable := !s.isTimeSinceMode
  let s := { s with isTimeSinceMode := willEnable }
  if willEnable then
    { s with isCompareMode := false, isStatsMode := false, isMaterialGroupsMode := false,
             isDetailMode := false, detailTarget := none, detailReturnContext := .list }
  else s

/-- The material-groups button click handler: toggles isMaterialGroupsMode
and, when enabling, clears the four other mode flags. -/
def materialGroupsClick (s : ModeState) : ModeState :=
  let willEnable := !s.isMaterialGroupsMode
  let s := { s with isMaterialGroupsMode := willEnable }
  if willEnable then
    { s with isCompareMode := false, isStatsMode := false, isTimeSinceMode := false,
             isDetailMode := false, detailTarget := none, detailReturnContext := .list }
  else s

/-- DetailViewManager.getDetailData: resolve a target id against the year
groups or the versions list, by card id. -/
def detailDataFound (s : ModeState) (ty : DetailType) (id : String) : Bool :=
  match ty with
  | .year => ((groupByYear s.allUpdates).find? (fun g => g.cardId == id)).isSome
  | .version => ((s.allUpdates).find? (fun r => r.cardId == id)).isSome

/-- DetailViewManager.open: a no-op when the id is empty or does not
resolve; otherwise records the return context, switches the view to the
target kind and enters detail mode, clearing the stats and compare flags
(the time-since and material-groups flags are not touched). -/
def detailOpen (ty : DetailType) (id : String) (preserveContext : Bool) (s : ModeState) : ModeState :=
  if id.data.isEmpty then s
  else if !(detailDataFound s ty id) then s
  else
    let s :=
      if preserveContext then s
      else { s with detailReturnContext :=
              if s.isStatsMode then .stats else if s.isCompareMode then .compare else .list }
    { s with currentView := (match ty with | .year => .years | .version => .versions),
             detailTarget := some (ty, id), isDetailMode := true,
             isStatsMode := false, isCompareMode := false }

/-- DetailViewManager.close: a no-op outside detail mode; otherwise leaves
detail mode and re-enters the recorded return context, resetting it to
list. -/
def detailClose (s : ModeState) : ModeState :=
  if !s.isDetailMode then s
  else
    let returnContext := s.detailReturnContext
    let s := { s with isDetailMode := false, detailTarget := none }
    let s :=
      match returnContext with
      | .stats => { s with isStatsMode := true, isCompareMode := false }
      | .compare => { s with isCompareMode := true, isStatsMode := false }
      | .list => { s with isStatsMode := false, isCompareMode := false }
    { s with detailReturnContext := .list }

/-- One mode-changing user operation. -/
inductive ModeOp where
  | compareClick
  | statsClick
  | timeSinceClick
  | materialGroupsClick
  | detailOpen (ty : DetailType) (id : String) (preserveContext : Bool)
  | detailClose
deriving DecidableEq, Repr

/-- Apply one mode operation. -/
def applyModeOp (s : ModeState) : ModeOp → ModeState
  | .compareClick => compareClick s
  | .statsClick => statsClick s
  | .timeSinceClick => timeSinceClick s
  | .materialGroupsClick => materialGroupsClick s
  | .detailOpen ty id pc => detailOpen ty id pc s
  | .detailClose => detailClose s

/-- Apply a sequence of mode operations from left to right. -/
def applyModeOps (s : ModeState) (ops : List ModeOp) : ModeState :=
  ops.foldl applyModeOp s

/-- Entry of a dataset view: an update record in the versions view, a year
group in the years view. -/
inductive CEntry where
  | version (r : UpdateRecord)
  | year (g : YearGroup)
deriving DecidableEq, Repr

/-- Card id of a dataset-view entry. -/
def CEntry.cardId : CEntry → String
  | .version r => r.cardId
  | .year g => g.cardId

/-- The compare-selection slice of the application state: current view,
selections, and the temporary id stores consumed by
restoreCompareVersions. -/
structure CompareApp where
  currentView : View := .versions
  isCompareMode : Bool := false
  allUpdates : List UpdateRecord := []
  compareVersions : Option CEntry × Option CEntry := (none, none)
  savedCompareVersionIds : Option (Option String × Option String) := none
  urlCompareVersionIds : Option (Option String × Option String) := none
deriving DecidableEq, Repr

/-- The record list of the currently active dataset view. -/
def CompareApp.dataSource (s : CompareApp) : List CEntry :=
  match s.currentView with
  | .years => (groupByYear s.allUpdates).map .year
  | .versions => s.allUpdates.map .version

/-- restoreCompareVersions: resolve the temporarily stored ids (URL over
storage) against the current dataset view, then delete both temporary
stores; a no-op when neither store is present. -/
def restoreCompareVersions (s : CompareApp) : CompareApp :=
  match s.urlCompareVersionIds.orElse (fun _ => s.savedCompareVersionIds) with
  | none => s
  | some (id1, id2) =>
    let ds := s.dataSource
    let resolve := fun (id : Option String) =>
      match id with
      | none => none
      | some i => ds.find? (fun e => e.cardId == i)
    { s with compareVersions := (resolve id1, resolve id2),
             savedCompareVersionIds := none, urlCompareVersionIds := none }

/-- CompareManager.render's selection re-resolution: each selected entry is
looked up again by card id in the current dataset view. -/
def compareRenderResolve (s : CompareApp) : CompareApp :=
  let ds := s.dataSource
  let resolve := fun (sel : Option CEntry) =>
    match sel with
    | none => none
    | some item => ds.find? (fun e => e.cardId == item.cardId)
  { s with compareVersions := (resolve s.compareVersions.1, resolve s.compareVersions.2) }

/-- A selection from the first compare selector: the chosen card id is
resolved in the current dataset view. -/
def compareSelectFirst (id : String) (s : CompareApp) : CompareApp :=
  { s with compareVersions := (s.dataSource.find? (fun e => e.cardId == id), s.compareVersions.2) }

/-- A selection from the second compare selector. -/
def compareSelectSecond (id : String) (s : CompareApp) : CompareApp :=
  { s with compareVersions := (s.compareVersions.1, s.dataSource.find? (fun e => e.cardId == id)) }

/-- The view toggle click handler restricted to the compare-relevant
effects: switch the view and, in compare mode, clear the selections, run
restoreCompareVersions, and re-render (whose selection re-resolution is
compareRenderResolve). -/
def toggleViewClick (target : View) (s : CompareApp) : CompareApp :=
  if s.currentView = target then s
  else
    let s := { s with currentView := target }
    if s.isCompareMode then
      compareRenderResolve (restoreCompareVersions { s with compareVersions := (none, none) })
    else s

/-- JSON value, the possible results of JSON.parse on a stored snapshot. -/
inductive JVal where
  | null
  | bool (b : Bool)
  | num (n : Int)
  | str (s : String)
  | arr (elems : List JVal)
  | obj (fields : List (String × JVal))

/-- JavaScript truthiness of a JSON value. -/
def truthy : JVal → Bool
  | .null => false
  | .bool b => b
  | .num n => n != 0
  | .str s => !s.data.isEmpty
  | .arr _ => true
  | .obj _ => true

/-- typeof v === 'object' for a JSON value (arrays and null included). -/
def isObjectType : JVal → Bool
  | .obj _ => true
  | .arr _ => true
  | .null => true
  | _ => false

/-- Property access on a parsed JSON value; absent properties and access on
non-objects give undefined, modelled as none. JSON.parse keeps the last of
duplicate keys, hence the reverse lookup. -/
def getField (v : JVal) (k : String) : Option JVal :=
  match v with
  | .obj fs => fs.reverse.lookup k
  | _ => none

/-- The restorable application state owned by MinecraftUpdatesApp, with its
constructor defaults. The detailTarget and detailReturnContext fields hold
whatever JSON value was restored into them, as the source performs no shape
validation there. -/
structure AppState where
  currentView : View := .versions
  removeDuplicates : Bool := true
  showBlocks : Bool := true
  showItems : Bool := true
  showMobs : Bool := true
  showMobVariants : Bool := true
  showEffects : Bool := true
  showEnchantments : Bool := true
  showAdvancements : Bool := true
  showPaintings : Bool := true
  showBiomes : Bool := true
  showBorders : Bool := false
  collapsedSections : JVal := .obj []
  isCompareMode : Bool := false
  isStatsMode : Bool := false
  isTimeSinceMode : Bool := false
  isMaterialGroupsMode : Bool := false
  isDetailMode : Bool := false
  detailTarget : JVal := .null
  detailReturnContext : JVal := .str "list"
  searchValue : String := ""
  savedDetailTarget : Option JVal := none
  storedCompareVersionIds : Option JVal := none
  urlDetailTarget : Option (String × String) := none
  urlCompareIds : Option (Option String × Option String) := none

/-- The constructor defaults. -/
def defaultAppState : AppState := {}

/-- typeof f === 'boolean' field restoration: keep the current value unless
the saved field is a boolean. -/
def applyBool (cur : Bool) (f : Option JVal) : Bool :=
  match f with
  | some (.bool b) => b
  | _ => cur

/-- The ten boolean properties restored by the booleanProps loop of
restoreState. -/
inductive BoolProp where
  | removeDuplicates | showBlocks | showItems | showMobs | showMobVariants
  | showEffects | showEnchantments | showAdvancements | showPaintings | showBiomes
deriving DecidableEq, Repr

/-- Snapshot key of a boolean property. -/
def BoolProp.key : BoolProp → String
  | .removeDuplicates => "removeDuplicates"
  | .showBlocks => "showBlocks"
  | .showItems => "showItems"
  | .showMobs => "showMobs"
  | .showMobVariants => "showMobVariants"
  | .showEffects => "showEffects"
  | .showEnchantments => "showEnchantments"
  | .showAdvancements => "showAdvancements"
  | .showPaintings => "showPaintings"
  | .showBiomes => "showBiomes"

/-- State accessor of a boolean property. -/
def BoolProp.get : BoolProp → AppState → Bool
  | .removeDuplicates, s => s.removeDuplicates
  | .showBlocks, s => s.showBlocks
  | .showItems, s => s.showItems
  | .showMobs, s => s.showMobs
  | .showMobVariants, s => s.showMobVariants
  | .showEffects, s => s.showEffects
  | .showEnchantments, s => s.showEnchantments
  | .showAdvancements, s => s.showAdvancements
  | .showPaintings, s => s.showPaintings
  | .showBiomes, s => s.showBiomes

/-- restoreState phase: the validated currentView field. -/
def restoreViewField (v : JVal) (s : AppState) : AppState :=
  match getField v "currentView" with
  | some (.str sv) =>
    if sv = "versions" then { s with currentView := .versions }
    else if sv = "years" then { s with currentView := .years }
    else s
  | _ => s

/-- restoreState phase: the booleanProps loop over the ten boolean fields. -/
def restoreBoolFields (v : JVal) (s : AppState) : AppState :=
  { s with
    removeDuplicates := applyBool s.removeDuplicates (getField v "removeDuplicates"),
    showBlocks := applyBool s.showBlocks (getField v "showBlocks"),
    showItems := applyBool s.showItems (getField v "showItems"),
    showMobs := applyBool s.showMobs (getField v "showMobs"),
    showMobVariants := applyBool s.showMobVariants (getField v "showMobVariants"),
    showEffects := applyBool s.showEffects (getField v "showEffects"),
    showEnchantments := applyBool s.showEnchantments (getField v "showEnchantments"),
    showAdvancements := applyBool s.showAdvancements (getField v "showAdvancements"),
    showPaintings := applyBool s.showPaintings (getField v "showPaintings"),
    showBiomes := applyBool s.showBiomes (getField v "showBiomes") }

/-- restoreState phase: collapsedSections, accepted when truthy and of
object type (arrays included). -/
def restoreCollapsedField (v : JVal) (s : AppState) : AppState :=
  match getField v "collapsedSections" with
  | some f => if truthy f && isObjectType f then { s with collapsedSections := f } else s
  | none => s

/-- restoreState phase: the boolean-checked compare, stats and time-since
flags. -/
def restoreModeFlagFields (v : JVal) (s : AppState) : AppState :=
  { s with
    isCompareMode := applyBool s.isCompareMode (getField v "isCompareMode"),
    isStatsMode := applyBool s.isStatsMode (getField v "isStatsMode"),
    isTimeSinceMode := applyBool s.isTimeSinceMode (getField v "isTimeSinceMode") }

/-- restoreState phase: the three mutual-exclusion normalisations that run
after the flag restoration. -/
def normalizeModeFlags (s : AppState) : AppState :=
  let s := if s.isStatsMode then { s with isCompareMode := false, isTimeSinceMode := false } else s
  let s :=
    if s.isTimeSinceMode then
      { s with isCompareMode := false, isStatsMode := false, isMaterialGroupsMode := false }
    else s
  if s.isMaterialGroupsMode then
    { s with isCompareMode := false, isStatsMode := false, isTimeSinceMode := false }
  else s

/-- restoreState phase: the boolean-checked detail flag. -/
def restoreDetailFlagField (v : JVal) (s : AppState) : AppState :=
  { s with isDetailMode := applyBool s.isDetailMode (getField v "isDetailMode") }

/-- restoreState phase: detailTarget, accepted whenever truthy, with no
shape validation. -/
def restoreDetailTargetField (v : JVal) (s : AppState) : AppState :=
  match getField v "detailTarget" with
  | some f => if truthy f then { s with detailTarget := f, savedDetailTarget := some f } else s
  | none => s

/-- restoreState phase: detailReturnContext, accepted whenever truthy,
with no shape or enum validation. -/
def restoreDetailCtxField (v : JVal) (s : AppState) : AppState :=
  match getField v "detailReturnContext" with
  | some f => if truthy f then { s with detailReturnContext := f } else s
  | none => s

/-- restoreState phase: the boolean-checked detail flag, then the
truthiness-only detailTarget and detailReturnContext fields. -/
def restoreDetailFields (v : JVal) (s : AppState) : AppState :=
  restoreDetailCtxField v (restoreDetailTargetField v (restoreDetailFlagField v s))

/-- restoreState phase: detail mode suppresses every other mode flag. -/
def normalizeDetailFlags (s : AppState) : AppState :=
  if s.isDetailMode then
    { s with isStatsMode := false, isCompareMode := false, isTimeSinceMode := false,
             isMaterialGroupsMode := false }
  else s

/-- restoreState phase: compareVersionIds is stashed when it is an array. -/
def restoreCompareIdsField (v : JVal) (s : AppState) : AppState :=
  match getField v "compareVersionIds" with
  | some (.arr xs) => { s with storedCompareVersionIds := some (.arr xs) }
  | _ => s

/-- The field-by-field application performed by restoreState on a
successfully parsed snapshot object, in source order. -/
def restoreStateApply (s : AppState) (v : JVal) : AppState :=
  restoreCompareIdsField v (normalizeDetailFlags (restoreDetailFields v
    (normalizeModeFlags (restoreModeFlagFields v
      (restoreCollapsedField v (restoreBoolFields v (restoreViewField v s)))))))

/-- State of the persisted snapshot entry as seen by restoreState. -/
inductive StoredEntry where
  | missing
  | corrupt
  | value (v : JVal)

/-- The try body of restoreState: a missing entry returns early, a corrupt
one throws inside JSON.parse, a null value throws on the first property
access, and any other value is applied field by field. -/
def restoreStateE (s : AppState) (e : StoredEntry) : Except Unit AppState :=
  match e with
  | .missing => .ok s
  | .corrupt => .error ()
  | .value .null => .error ()
  | .value v => .ok (restoreStateApply s v)

/-- restoreState with its catch-all handler: a thrown error leaves the
state as it was. -/
def restoreState (s : AppState) (e : StoredEntry) : AppState :=
  match restoreStateE s e with
  | .ok s' => s'
  | .error _ => s

/-- The try body of saveState: building and stringifying the snapshot is
infallible; the localStorage write may throw (quota, restricted context). -/
def saveStateE (writeFails : Bool) : Except Unit Unit :=
  if writeFails then .error () else .ok ()

/-- saveState with its catch-all handler: storage errors are swallowed. -/
def saveStateCaught (writeFails : Bool) : Except Unit Unit :=
  match saveStateE writeFails with
  | .ok _ => .ok ()
  | .error _ => .ok ()

/-- The URL query parameters read by restoreFromURL; absent parameters are
none (URLSearchParams.get returning null). -/
structure URLParams where
  view : Option String := none
  mode : Option String := none
  search : Option String := none
  compare1 : Option String := none
  compare2 : Option String := none
  detailType : Option String := none
  detailId : Option String := none
deriving DecidableEq, Repr

/-- Truthiness of a nullable string parameter. -/
def optTruthy (o : Option String) : Bool :=
  match o with
  | some s => !s.data.isEmpty
  | none => false

/-- restoreFromURL phase: the view parameter is applied only when it is
one of the two enum values. -/
def urlViewPhase (u : URLParams) (s : AppState) : AppState :=
  match u.view with
  | some v =>
    if v = "versions" then { s with currentView := .versions }
    else if v = "years" then { s with currentView := .years }
    else s
  | none => s

/-- restoreFromURL phase: the five mode flags are assigned unconditionally
from equality comparisons with the mode parameter. -/
def urlModePhase (u : URLParams) (s : AppState) : AppState :=
  { s with
    isCompareMode := u.mode == some "compare",
    isStatsMode := u.mode == some "stats",
    isTimeSinceMode := u.mode == some "time-since",
    isMaterialGroupsMode := u.mode == some "material-groups",
    isDetailMode := u.mode == some "detail" }

/-- restoreFromURL phase: the per-mode else-if chain that stashes a detail
target and suppresses the competing flags. -/
def urlDetailNormalize (u : URLParams) (s : AppState) : AppState :=
  if s.isDetailMode then
    let dt := u.detailType.getD "version"
    let s :=
      if optTruthy u.detailId then { s with urlDetailTarget := some (dt, u.detailId.getD "") }
      else s
    { s with isCompareMode := false, isStatsMode := false, isTimeSinceMode := false,
             isMaterialGroupsMode := false }
  else if s.isStatsMode then
    { s with isCompareMode := false, isTimeSinceMode := false, isMaterialGroupsMode := false }
  else if s.isTimeSinceMode then
    { s with isCompareMode := false, isStatsMode := false, isMaterialGroupsMode := false }
  else if s.isMaterialGroupsMode then
    { s with isCompareMode := false, isStatsMode := false, isTimeSinceMode := false }
  else s

/-- restoreFromURL phase: the search value is taken when truthy. -/
def urlSearchPhase (u : URLParams) (s : AppState) : AppState :=
  if optTruthy u.search then { s with searchValue := u.search.getD "" } else s

/-- restoreFromURL phase: in compare mode, truthy compare ids are stashed
for resolution after the data load. -/
def urlComparePhase (u : URLParams) (s : AppState) : AppState :=
  if s.isCompareMode then
    if optTruthy u.compare1 || optTruthy u.compare2 then
      { s with urlCompareIds := some (u.compare1, u.compare2) }
    else s
  else s

/-- restoreFromURL: the view parameter is applied only when it is one of
the two enum values; the five mode flags are then assigned unconditionally
from comparisons with the mode parameter, a detail target or compare ids
are stashed, and the search value is taken when truthy. -/
def restoreFromURL (s : AppState) (u : URLParams) : AppState :=
  urlComparePhase u (urlSearchPhase u (urlDetailNormalize u (urlModePhase u (urlViewPhase u s))))

/-- Partition rank of a record in the load-time sort: upcoming, year-only,
full date. -/
def dateRank (r : UpdateRecord) : Nat :=
  match r.release_date with
  | none => 0
  | some s => if isYearOnly s then 1 else 2

/-- The ordering the spec claims for the load-time sort: partition ranks
are nondecreasing, year-only pairs are ordered by numeric year descending,
and parseable full-date pairs by parsed date descending. -/
def claimOrder (a b : UpdateRecord) : Prop :=
  dateRank a ≤ dateRank b ∧
  (∀ sa sb, a.release_date = some sa → b.release_date = some sb →
    isYearOnly sa = true → isYearOnly sb = true → yearVal sb ≤ yearVal sa) ∧
  (∀ sa sb da db, a.release_date = some sa → b.release_date = some sb →
    isYearOnly sa = false → isYearOnly sb = false →
    parseDate (some sa) = some da → parseDate (some sb) = some db →
    timeKey db ≤ timeKey da)

/-- A record in the full-date partition whose date string fails to parse. -/
def fullUnparseable (r : UpdateRecord) : Bool :=
  match r.release_date with
  | some s => !isYearOnly s && (parseDate (some s)).isNone
  | none => false

/-- A record in the full-date partition whose date string parses. -/
def fullParseable (r : UpdateRecord) : Bool :=
  match r.release_date with
  | some s => !isYearOnly s && (parseDate (some s)).isSome
  | none => false

/-- Decimal digit characters of a natural number, most significant first;
reference form of the strings Nat.repr produces. -/
def natChars (n : Nat) : List Char :=
  if _h : n < 10 then [Nat.digitChar n]
  else natChars (n / 10) ++ [Nat.digitChar (n % 10)]
decreasing_by exact Nat.div_lt_self (by omega) (by omega)

/-- Example record A of the spec's sort property: upcoming. -/
def exA : UpdateRecord := { name := some "A" }

/-- Example record B of the spec's sort property: year-only 2021. -/
def exB : UpdateRecord := { name := some "B", release_date := some "2021" }

/-- Example record C of the spec's sort property: full date 2021-06-01. -/
def exC : UpdateRecord := { name := some "C", release_date := some "2021-06-01" }

/-- Example record D of the spec's sort property: full date 2020-01-01. -/
def exD : UpdateRecord := { name := some "D", release_date := some "2020-01-01" }

/-- A record whose date string fails to parse. -/
def exE : UpdateRecord := { name := some "E", release_date := some "not-a-date" }

/-- A second record whose date string fails to parse. -/
def exF : UpdateRecord := { name := some "F", release_date := some "also-bad" }

/-- Numeric value of a decimal digit string, inverse of natChars. -/
def charsVal (ds : List Char) : Nat := ds.foldl (fun a c => 10 * a + digitVal c) 0

/-- Item contributed by the March record of the year-grouping example. -/
def itB1 : Item := { name := some "b1" }

/-- Item contributed by the September record of the year-grouping example. -/
def itB2 : Item := { name := some "b2" }

/-- Year-grouping example record dated 2021-03-01 with one blocks item. -/
def exMar : UpdateRecord :=
  { name := some "M", release_date := some "2021-03-01", added := { blocks := [itB1] } }

/-- Year-grouping example record dated 2021-09-01 with one blocks item. -/
def exSep : UpdateRecord :=
  { name := some "S", release_date := some "2021-09-01", added := { blocks := [itB2] } }

/-- A record whose date parses to year 0: the falsy-year guard drops it. -/
def exYearZero : UpdateRecord :=
  { name := some "Z", release_date := some "0000-06-15", added := { blocks := [itB1] } }

/-- Growth example: the chronologically newer record, two blocks. -/
def exNewG : UpdateRecord :=
  { name := some "N", release_version_java := some "1.17",
    release_date := some "2021-06-01", added := { blocks := [itB1, itB2] } }

/-- Growth example: the chronologically older record, one block. -/
def exOldG : UpdateRecord :=
  { name := some "O", release_version_java := some "1.16",
    release_date := some "2020-01-01", added := { blocks := [itB1] } }

/-- Concrete record list for the compare round-trip run. -/
def cmpRec1 : UpdateRecord := { name := some "Alpha", release_date := some "2021-06-01" }

/-- Second record of the compare round-trip run. -/
def cmpRec2 : UpdateRecord := { name := some "Beta", release_date := some "2020-01-01" }

/-- Post-load compare state: compare mode in the versions view, both
temporary id stores already consumed and deleted by the load-time
restoreCompareVersions call. -/
def cmpState0 : CompareApp :=
  { currentView := .versions, isCompareMode := true, allUpdates := [cmpRec1, cmpRec2] }

/-- The state after the user selects both records. -/
def cmpState2 : CompareApp :=
  compareSelectSecond "Beta" (compareSelectFirst "Alpha" cmpState0)

/-- The state after switching the dataset view to years and back. -/
def cmpState4 : CompareApp :=
  toggleViewClick .versions (toggleViewClick .years cmpState2)

/-- Digit characters have code points between 48 and 57. -/
theorem isDig_bounds {c : Char} (h : isDig c = true) : 48 ≤ c.toNat ∧ c.toNat ≤ 57 := by
  simpa [isDig] using h

/-- A year-only string denotes a number of at most four digits. -/
theorem yearVal_le_9999 {s : String} (h : isYearOnly s = true) : yearVal s ≤ 9999 := by
  unfold isYearOnly at h
  unfold yearVal
  generalize hg : trimChars s.data = t at h ⊢
  simp only [Bool.and_eq_true, beq_iff_eq, List.all_eq_true] at h
  obtain ⟨hlen, hdig⟩ := h
  rcases t with _ | ⟨c1, _ | ⟨c2, _ | ⟨c3, _ | ⟨c4, _ | ⟨c5, t⟩⟩⟩⟩⟩ <;> simp_all
  obtain ⟨hd1, hd2, hd3, hd4⟩ := hdig
  have h1 := isDig_bounds hd1
  have h2 := isDig_bounds hd2
  have h3 := isDig_bounds hd3
  have h4 := isDig_bounds hd4
  simp only [digitVal]
  omega

/-- Every month length is at most 31. -/
theorem daysInMonth_le_31 (y m : Nat) : daysInMonth y m ≤ 31 := by
  unfold daysInMonth
  split
  case isTrue => split <;> omega
  case isFalse => split <;> omega

/-- Bounds on a successfully parsed full date. -/
theorem parseFullDate_bounds {s : String} {d : JSDate} (h : parseFullDate s = some d) :
    d.year ≤ 9999 ∧ 1 ≤ d.month ∧ d.month ≤ 12 ∧ 1 ≤ d.day ∧ d.day ≤ 31 := by
  unfold parseFullDate at h
  split at h
  case h_2 => exact absurd h (by simp)
  case h_1 _l c1 c2 c3 c4 c5 c6 c7 c8 _heq =>
    split at h
    case isFalse => exact absurd h (by simp)
    case isTrue hg =>
      simp only [] at h
      split at h
      case isFalse => exact absurd h (by simp)
      case isTrue hg2 =>
        injection h with h
        subst h
        simp only [Bool.and_eq_true] at hg hg2
        obtain ⟨⟨⟨⟨⟨⟨⟨e1, e2⟩, e3⟩, e4⟩, e5⟩, e6⟩, e7⟩, e8⟩ := hg
        have b1 := isDig_bounds e1
        have b2 := isDig_bounds e2
        have b3 := isDig_bounds e3
        have b4 := isDig_bounds e4
        have b5 := isDig_bounds e5
        have b6 := isDig_bounds e6
        have b7 := isDig_bounds e7
        have b8 := isDig_bounds e8
        obtain ⟨⟨⟨g1, g2⟩, g3⟩, g4⟩ := hg2
        have hdm := daysInMonth_le_31
          (1000 * digitVal c1 + 100 * digitVal c2 + 10 * digitVal c3 + digitVal c4)
          (10 * digitVal c5 + digitVal c6)
        simp only [decide_eq_true_eq] at g1 g2 g3 g4
        simp only [digitVal] at *
        omega

/-- Time key of any successfully parsed date string. -/
theorem parseDate_timeKey_le {s : String} {d : JSDate} (h : parseDate (some s) = some d) :
    timeKey d ≤ 99991231 := by
  simp only [parseDate] at h
  split at h
  case isTrue => exact absurd h (by simp)
  case isFalse =>
    split at h
    case isTrue hyo =>
      injection h with h
      subst h
      have := yearVal_le_9999 hyo
      unfold timeKey twoDigitYearFix
      simp only
      split <;> omega
    case isFalse =>
      have hb := parseFullDate_bounds h
      unfold timeKey
      omega

/-- The comparator accepts a before b exactly when their sort keys are
ordered; the key packs partition rank and inverted within-partition order. -/
theorem cmp_le_iff (a b : UpdateRecord) : cmpUpdates a b ≤ 0 ↔ sortKey a ≤ sortKey b := by
  unfold cmpUpdates sortKey
  cases ha : a.release_date <;> cases hb : b.release_date <;> simp only [ha, hb]
  case none.some sb =>
    cases hyb : isYearOnly sb with
    | true =>
      have := yearVal_le_9999 hyb
      simp only [hyb, if_true]
      omega
    | false =>
      simp only [Bool.false_eq_true, if_false]
      rcases hpb : parseDate (some sb) with _ | db
      · dsimp only
        omega
      · have := parseDate_timeKey_le hpb
        dsimp only
        omega
  case some.none sa =>
    cases hya : isYearOnly sa with
    | true =>
      have := yearVal_le_9999 hya
      simp only [hya, if_true]
      omega
    | false =>
      simp only [Bool.false_eq_true, if_false]
      rcases hpa : parseDate (some sa) with _ | da
      · dsimp only
        omega
      · have := parseDate_timeKey_le hpa
        dsimp only
        omega
  case some.some sa sb =>
    cases hya : isYearOnly sa <;> cases hyb : isYearOnly sb <;>
      simp only [hya, hyb, Bool.not_true, Bool.not_false, Bool.true_and, Bool.false_and,
        Bool.and_true, Bool.and_false, if_true, if_false, Bool.and_self, ite_true, ite_false,
        Bool.false_eq_true, Bool.true_eq_false, iff_true, iff_false]
    case false.false =>
      rcases hpa : parseDate (some sa) with _ | da <;> rcases hpb : parseDate (some sb) with _ | db <;>
        simp only [hpa, hpb]
      · simp
      · have := parseDate_timeKey_le hpb
        omega
      · have := parseDate_timeKey_le hpa
        omega
      · have h1 := parseDate_timeKey_le hpa
        have h2 := parseDate_timeKey_le hpb
        omega
    case false.true =>
      have := yearVal_le_9999 hyb
      rcases hpa : parseDate (some sa) with _ | da
      · simp only [hpa]
        omega
      · have := parseDate_timeKey_le hpa
        simp only [hpa]
        omega
    case true.false =>
      have := yearVal_le_9999 hya
      rcases hpb : parseDate (some sb) with _ | db
      · simp only [hpb]
        omega
      · have := parseDate_timeKey_le hpb
        simp only [hpb]
        omega
    case true.true =>
      have h1 := yearVal_le_9999 hya
      have h2 := yearVal_le_9999 hyb
      omega

/-- The comparator's acceptance relation is total. -/
instance : IsTotal UpdateRecord cmpLeRel where
  total a b := by
    unfold cmpLeRel
    rw [cmp_le_iff, cmp_le_iff]
    exact le_total (sortKey a) (sortKey b)

/-- The comparator's acceptance relation is transitive. -/
instance : IsTrans UpdateRecord cmpLeRel where
  trans a b c h1 h2 := by
    unfold cmpLeRel at h1 h2 ⊢
    rw [cmp_le_iff] at h1 h2 ⊢
    exact le_trans h1 h2

/-- The load-time sort output is pairwise accepted by the comparator. -/
theorem sortUpdates_pairwise (l : List UpdateRecord) :
    (sortUpdates l).Pairwise cmpLeRel :=
  List.sorted_insertionSort cmpLeRel l

/-- The load-time sort permutes its input. -/
theorem sortUpdates_perm (l : List UpdateRecord) : List.Perm (sortUpdates l) l :=
  List.perm_insertionSort cmpLeRel l

/-- Comparator acceptance implies the spec's partition order. -/
theorem claimOrder_of_cmpLe {a b : UpdateRecord} (h : cmpUpdates a b ≤ 0) : claimOrder a b := by
  unfold claimOrder dateRank
  refine ⟨?_, ?_, ?_⟩
  · unfold cmpUpdates at h
    rcases ha : a.release_date with _ | sa <;> rcases hb : b.release_date with _ | sb <;>
      rw [ha, hb] at h <;> dsimp only at h ⊢
    · omega
    · split <;> omega
    · cases hya : isYearOnly sa <;> cases hyb : isYearOnly sb <;> simp_all
  · intro sa sb hsa hsb hya hyb
    unfold cmpUpdates at h
    rw [hsa, hsb] at h
    simp only [hya, hyb] at h
    simp at h
    omega
  · intro sa sb da db hsa hsb hya hyb hpa hpb
    unfold cmpUpdates at h
    rw [hsa, hsb] at h
    simp only [hya, hyb] at h
    simp only [Bool.not_false, Bool.and_false, Bool.false_and, Bool.and_self, Bool.and_true,
      Bool.true_and, Bool.false_eq_true, if_false, ite_false] at h
    rw [hpa, hpb] at h
    dsimp only at h
    omega

/-- C4. Load-time sort order: the sort output is always ordered by the
comparator's partition order (upcoming first, then year-only by numeric
year descending, then full dates by parsed date descending) and permutes
the input; in particular every arrangement of the four example records
sorts to [A, B, C, D]. -/
theorem claim_C4_sort_order :
    (∀ l : List UpdateRecord,
      (sortUpdates l).Pairwise claimOrder ∧ List.Perm (sortUpdates l) l) ∧
    (([[exA, exB, exC, exD],
      [exA, exB, exD, exC],
      [exA, exC, exB, exD],
      [exA, exC, exD, exB],
      [exA, exD, exB, exC],
      [exA, exD, exC, exB],
      [exB, exA, exC, exD],
      [exB, exA, exD, exC],
      [exB, exC, exA, exD],
      [exB, exC, exD, exA],
      [exB, exD, exA, exC],
      [exB, exD, exC, exA],
      [exC, exA, exB, exD],
      [exC, exA, exD, exB],
      [exC, exB, exA, exD],
      [exC, exB, exD, exA],
      [exC, exD, exA, exB],
      [exC, exD, exB, exA],
      [exD, exA, exB, exC],
      [exD, exA, exC, exB],
      [exD, exB, exA, exC],
      [exD, exB, exC, exA],
      [exD, exC, exA, exB],
      [exD, exC, exB, exA]] : List (List UpdateRecord)).all
      (fun l => sortUpdates l == [exA, exB, exC, exD]) = true) := by
  constructor
  · intro l
    exact ⟨(sortUpdates_pairwise l).imp (fun h => claimOrder_of_cmpLe h), sortUpdates_perm l⟩
  · decide

/-- Unpack a record of the full-date partition with unparseable date. -/
theorem fullUnparseable_elim {r : UpdateRecord} (h : fullUnparseable r = true) :
    ∃ s, r.release_date = some s ∧ isYearOnly s = false ∧ parseDate (some s) = none := by
  unfold fullUnparseable at h
  rcases hr : r.release_date with _ | s
  · rw [hr] at h
    exact absurd h (by simp)
  · rw [hr] at h
    simp only [Bool.and_eq_true, Bool.not_eq_true', Option.isNone_iff_eq_none] at h
    exact ⟨s, rfl, h.1, h.2⟩

/-- Unpack a record of the full-date partition with parseable date. -/
theorem fullParseable_elim {r : UpdateRecord} (h : fullParseable r = true) :
    ∃ s d, r.release_date = some s ∧ isYearOnly s = false ∧ parseDate (some s) = some d := by
  unfold fullParseable at h
  rcases hr : r.release_date with _ | s
  · rw [hr] at h
    exact absurd h (by simp)
  · rw [hr] at h
    simp only [Bool.and_eq_true, Bool.not_eq_true', Option.isSome_iff_exists] at h
    obtain ⟨hy, d, hd⟩ := h
    exact ⟨s, d, rfl, hy, hd⟩

/-- In the full-date partition the comparator reduces to the date match. -/
theorem cmp_full_eval {a b : UpdateRecord} {sa sb : String}
    (ha : a.release_date = some sa) (hb : b.release_date = some sb)
    (hya : isYearOnly sa = false) (hyb : isYearOnly sb = false) :
    cmpUpdates a b =
      (match parseDate (some sa), parseDate (some sb) with
       | none, none => 0
       | none, some _ => -1
       | some _, none => 1
       | some da, some db => (timeKey db : Int) - (timeKey da : Int)) := by
  unfold cmpUpdates
  rw [ha, hb]
  dsimp only
  rw [hya, hyb]
  simp

/-- C3 counterexample. The record with the unparseable date string is
ordered before, not after, the record whose date parses: sorting a
parseable full date followed by an unparseable one swaps them. -/
theorem claim_C3_counterexample :
    sortUpdates [exC, exE] = [exE, exC] ∧
    exC.release_date = some "2021-06-01" ∧
    exE.release_date = some "not-a-date" ∧
    (parseDate (some "2021-06-01")).isSome = true ∧
    parseDate (some "not-a-date") = none := by
  refine ⟨?_, rfl, rfl, rfl, rfl⟩
  decide

/-- C3 as amended. Within the full-date partition, a record whose date
string fails to parse is ordered before (treated as newer than) every
record whose date string parses: no parseable full-date record ever
precedes an unparseable one in the sort output; and two records with
unparseable date strings keep their relative insertion order. -/
theorem claim_C3_amended :
    (∀ l : List UpdateRecord,
      (sortUpdates l).Pairwise
        (fun a b => ¬(fullParseable a = true ∧ fullUnparseable b = true))) ∧
    (∀ (l : List UpdateRecord) (a b : UpdateRecord),
      fullUnparseable a = true → fullUnparseable b = true →
      List.Sublist [a, b] l → List.Sublist [a, b] (sortUpdates l)) := by
  constructor
  · intro l
    refine (sortUpdates_pairwise l).imp ?_
    rintro a b hle ⟨hpa, hub⟩
    obtain ⟨sa, da, ha, hya, hda⟩ := fullParseable_elim hpa
    obtain ⟨sb, hb, hyb, hdb⟩ := fullUnparseable_elim hub
    unfold cmpLeRel at hle
    rw [cmp_full_eval ha hb hya hyb, hda, hdb] at hle
    dsimp only at hle
    omega
  · intro l a b hua hub hsub
    refine List.pair_sublist_insertionSort ?_ hsub
    obtain ⟨sa, ha, hya, hda⟩ := fullUnparseable_elim hua
    obtain ⟨sb, hb, hyb, hdb⟩ := fullUnparseable_elim hub
    unfold cmpLeRel
    rw [cmp_full_eval ha hb hya hyb, hda, hdb]

/-- C3 witness. Two concrete unparseable-date records keep their relative
order when sorted among parseable ones. -/
theorem claim_C3_witness :
    fullUnparseable exE = true ∧ fullUnparseable exF = true ∧
    List.Sublist [exE, exF] [exC, exE, exD, exF] ∧
    List.Sublist [exE, exF] (sortUpdates [exC, exE, exD, exF]) :=
  ⟨rfl, rfl, by decide, claim_C3_amended.2 [exC, exE, exD, exF] exE exF rfl rfl (by decide)⟩

/-- C1. Mode-exclusivity violation in the code: from the initial List
state, clicking the material-groups button and then the compare button
leaves both isMaterialGroupsMode and isCompareMode set, because the compare
handler never clears the material-groups flag. -/
theorem claim_C1_two_modes_active :
    (applyModeOps {} [ModeOp.materialGroupsClick, ModeOp.compareClick]).isCompareMode = true ∧
    (applyModeOps {} [ModeOp.materialGroupsClick, ModeOp.compareClick]).isMaterialGroupsMode = true ∧
    modeFlagCount (applyModeOps {} [ModeOp.materialGroupsClick, ModeOp.compareClick]) = 2 := by
  refine ⟨rfl, rfl, rfl⟩


/-- C2. Compare-selection round trip fails in the code: after selecting two
records in Compare + Versions and switching the view to Years and back,
both selections are null even though both records are still present in the
versions dataset, because the view toggle clears the selections and
restoreCompareVersions is a no-op once its temporary id stores were
deleted at load time. -/
theorem claim_C2_selection_lost :
    cmpState2.compareVersions = (some (.version cmpRec1), some (.version cmpRec2)) ∧
    cmpState4.currentView = View.versions ∧
    cmpState4.compareVersions = (none, none) ∧
    (CEntry.version cmpRec1) ∈ cmpState4.dataSource ∧
    (CEntry.version cmpRec2) ∈ cmpState4.dataSource := by
  refine ⟨by decide, by decide, by decide, by decide, by decide⟩

/-- C10 counterexample. The bare 4-digit year string 0099 does not parse to
December 31 of year 99: the Date constructor's two-digit year rule maps it
to December 31, 1999. -/
theorem claim_C10_counterexample :
    isYearOnly "0099" = true ∧ yearVal "0099" = 99 ∧
    parseDate (some "0099") = some { year := 1999, month := 12, day := 31 } ∧
    parseDate (some "0099") ≠ some { year := 99, month := 12, day := 31 } := by
  refine ⟨rfl, rfl, rfl, by decide⟩

/-- A year-only string is nonempty. -/
theorem isYearOnly_ne_empty {s : String} (h : isYearOnly s = true) : s.data ≠ [] := by
  intro heq
  unfold isYearOnly at h
  rw [heq] at h
  simp [trimChars] at h

/-- Evaluation of parseDate on a year-only string. -/
theorem parseDate_yearOnly {s : String} (h : isYearOnly s = true) :
    parseDate (some s) =
      some { year := if yearVal s ≤ 99 then 1900 + yearVal s else yearVal s,
             month := 12, day := 31 } := by
  unfold parseDate
  dsimp only
  rw [if_neg (isYearOnly_ne_empty h), if_pos h]
  rfl

/-- C10 as amended. A bare 4-digit year string with numeric value at least
100 parses to December 31 of exactly that year and its year group is that
literal year; values 0 to 99 are mapped to 1900 + value by the Date
constructor's two-digit year rule; null and the empty string parse to null;
any other string takes the general date parse. -/
theorem claim_C10_amended :
    (∀ s : String, isYearOnly s = true → 100 ≤ yearVal s →
      parseDate (some s) = some { year := yearVal s, month := 12, day := 31 } ∧
      (∀ r : UpdateRecord, r.release_date = some s → recYear r = some (yearVal s))) ∧
    (∀ s : String, isYearOnly s = true → yearVal s ≤ 99 →
      parseDate (some s) = some { year := 1900 + yearVal s, month := 12, day := 31 }) ∧
    parseDate none = none ∧
    parseDate (some "") = none ∧
    (∀ s : String, s.data ≠ [] → isYearOnly s = false →
      parseDate (some s) = parseFullDate s) := by
  refine ⟨?_, ?_, rfl, rfl, ?_⟩
  · intro s hyo h100
    have hp := parseDate_yearOnly hyo
    rw [if_neg (by omega)] at hp
    refine ⟨hp, ?_⟩
    intro r hr
    unfold recYear
    rw [hr, hp]
    dsimp only
    rw [if_neg (by omega : ¬ yearVal s = 0)]
  · intro s hyo h99
    have hp := parseDate_yearOnly hyo
    rwa [if_pos h99] at hp
  · intro s hne hyo
    unfold parseDate
    dsimp only
    rw [if_neg hne, if_neg (by simp [hyo])]

/-- C10 witness. The year-only string 2021 parses to December 31, 2021 and
groups under the literal year 2021. -/
theorem claim_C10_witness :
    isYearOnly "2021" = true ∧ 100 ≤ yearVal "2021" ∧
    parseDate (some "2021") = some { year := 2021, month := 12, day := 31 } ∧
    recYear exB = some 2021 :=
  ⟨rfl, by decide, (claim_C10_amended.1 "2021" rfl (by decide)).1,
    (claim_C10_amended.1 "2021" rfl (by decide)).2 exB rfl⟩

/-- Filtering twice by one predicate equals filtering once. -/
theorem filter_self_idem (p : α → Bool) (l : List α) :
    List.filter p (List.filter p l) = List.filter p l := by
  induction l with
  | nil => rfl
  | cons x xs ih => cases hp : p x <;> simp [List.filter_cons, hp, ih, -List.filter_filter]

/-- Filtering twice by a pair of predicates equals filtering once by them. -/
theorem filter_pair_idem (p q : α → Bool) (l : List α) :
    List.filter q (List.filter p (List.filter q (List.filter p l))) =
      List.filter q (List.filter p l) := by
  induction l with
  | nil => rfl
  | cons x xs ih => cases hp : p x <;> cases hq : q x <;> simp [List.filter_cons, hp, hq, ih, -List.filter_filter]

/-- filterItems is idempotent in its item list. -/
theorem filterItems_idem (items : List Item) (query : String) (removeDuplicates : Bool) :
    filterItems (filterItems items query removeDuplicates) query removeDuplicates =
      filterItems items query removeDuplicates := by
  unfold filterItems
  cases removeDuplicates with
  | false =>
    simp only [Bool.false_eq_true, if_false]
    exact filter_self_idem _ _
  | true =>
    simp only [if_true]
    exact filter_pair_idem _ _ _

/-- Field access of a field-by-field built added object. -/
theorem Added.get_ofFun (f : ContentType → List Item) (t : ContentType) :
    (Added.ofFun f).get t = f t := by
  cases t <;> rfl

/-- C8. Record filtering is idempotent: applying the record-shaped filter
twice with the same query and dedup flag equals applying it once. -/
theorem claim_C8_filter_idem (r : UpdateRecord) (query : String) (removeDuplicates : Bool) :
    filterRecord (filterRecord r query removeDuplicates) query removeDuplicates =
      filterRecord r query removeDuplicates := by
  cases r with
  | mk n dn rv rd ad =>
    unfold filterRecord filterAllContentTypes
    simp only [UpdateRecord.mk.injEq, true_and]
    refine congrArg Added.ofFun (funext fun t => ?_)
    rw [Added.get_ofFun]
    exact filterItems_idem _ _ _

/-- C5 counterexample. A persisted stats mode survives restoreState but an
unrecognized URL mode value resets it: the invalid value is not ignored. -/
theorem claim_C5_counterexample :
    ({ isStatsMode := true : AppState }).isStatsMode = true ∧
    (restoreFromURL { isStatsMode := true } { mode := some "bogus" }).isStatsMode = false ∧
    ("bogus" ∉ (["compare", "stats", "time-since", "material-groups", "detail"] : List String)) := by
  refine ⟨rfl, rfl, by decide⟩

/-- The view phase leaves every mode flag unchanged. -/
theorem urlViewPhase_flags (u : URLParams) (s : AppState) :
    (urlViewPhase u s).isCompareMode = s.isCompareMode ∧
    (urlViewPhase u s).isStatsMode = s.isStatsMode ∧
    (urlViewPhase u s).isTimeSinceMode = s.isTimeSinceMode ∧
    (urlViewPhase u s).isMaterialGroupsMode = s.isMaterialGroupsMode ∧
    (urlViewPhase u s).isDetailMode = s.isDetailMode := by
  unfold urlViewPhase
  rcases u.view with _ | v
  · exact ⟨rfl, rfl, rfl, rfl, rfl⟩
  · dsimp only
    split
    · exact ⟨rfl, rfl, rfl, rfl, rfl⟩
    split <;> exact ⟨rfl, rfl, rfl, rfl, rfl⟩

/-- An invalid view parameter leaves the view unchanged. -/
theorem urlViewPhase_invalid (u : URLParams) (s : AppState)
    (h : ∀ v, u.view = some v → v ≠ "versions" ∧ v ≠ "years") :
    urlViewPhase u s = s := by
  unfold urlViewPhase
  rcases hv : u.view with _ | v
  · rfl
  · obtain ⟨h1, h2⟩ := h v hv
    dsimp only
    rw [if_neg h1, if_neg h2]

/-- The detail normalisation does not change the current view. -/
theorem urlDetailNormalize_view (u : URLParams) (s : AppState) :
    (urlDetailNormalize u s).currentView = s.currentView := by
  unfold urlDetailNormalize
  split
  · split <;> rfl
  split
  · rfl
  split
  · rfl
  split <;> rfl

/-- The mode phase does not change the current view. -/
theorem urlModePhase_view (u : URLParams) (s : AppState) :
    (urlModePhase u s).currentView = s.currentView := rfl

/-- The search phase does not change the view or the mode flags. -/
theorem urlSearchPhase_proj (u : URLParams) (s : AppState) :
    (urlSearchPhase u s).currentView = s.currentView ∧
    (urlSearchPhase u s).isCompareMode = s.isCompareMode ∧
    (urlSearchPhase u s).isStatsMode = s.isStatsMode ∧
    (urlSearchPhase u s).isTimeSinceMode = s.isTimeSinceMode ∧
    (urlSearchPhase u s).isMaterialGroupsMode = s.isMaterialGroupsMode ∧
    (urlSearchPhase u s).isDetailMode = s.isDetailMode := by
  unfold urlSearchPhase
  split <;> exact ⟨rfl, rfl, rfl, rfl, rfl, rfl⟩

/-- The compare phase does not change the view or the mode flags. -/
theorem urlComparePhase_proj (u : URLParams) (s : AppState) :
    (urlComparePhase u s).currentView = s.currentView ∧
    (urlComparePhase u s).isCompareMode = s.isCompareMode ∧
    (urlComparePhase u s).isStatsMode = s.isStatsMode ∧
    (urlComparePhase u s).isTimeSinceMode = s.isTimeSinceMode ∧
    (urlComparePhase u s).isMaterialGroupsMode = s.isMaterialGroupsMode ∧
    (urlComparePhase u s).isDetailMode = s.isDetailMode := by
  unfold urlComparePhase
  split
  · split <;> exact ⟨rfl, rfl, rfl, rfl, rfl, rfl⟩
  · exact ⟨rfl, rfl, rfl, rfl, rfl, rfl⟩

/-- C5 as amended. An unrecognized view parameter is ignored and the
persisted-or-default view is kept; but an unrecognized mode parameter is
not ignored: it resets all five mode flags to false (List mode) regardless
of the persisted-or-default mode. -/
theorem claim_C5_amended :
    (∀ (s : AppState) (u : URLParams),
      (∀ v, u.view = some v → v ≠ "versions" ∧ v ≠ "years") →
      (restoreFromURL s u).currentView = s.currentView) ∧
    (∀ (s : AppState) (u : URLParams) (m : String), u.mode = some m →
      m ∉ (["compare", "stats", "time-since", "material-groups", "detail"] : List String) →
      (restoreFromURL s u).isCompareMode = false ∧
      (restoreFromURL s u).isStatsMode = false ∧
      (restoreFromURL s u).isTimeSinceMode = false ∧
      (restoreFromURL s u).isMaterialGroupsMode = false ∧
      (restoreFromURL s u).isDetailMode = false) := by
  constructor
  · intro s u h
    unfold restoreFromURL
    rw [(urlComparePhase_proj u _).1, (urlSearchPhase_proj u _).1,
      urlDetailNormalize_view, urlModePhase_view, urlViewPhase_invalid u s h]
  · intro s u m hm hmem
    simp only [List.mem_cons, List.not_mem_nil, or_false, not_or] at hmem
    obtain ⟨n1, n2, n3, n4, n5⟩ := hmem
    unfold restoreFromURL
    have hflags : ∀ t : AppState, (urlModePhase u t).isCompareMode = false ∧
        (urlModePhase u t).isStatsMode = false ∧
        (urlModePhase u t).isTimeSinceMode = false ∧
        (urlModePhase u t).isMaterialGroupsMode = false ∧
        (urlModePhase u t).isDetailMode = false := by
      intro t
      unfold urlModePhase
      simp only [hm]
      refine ⟨?_, ?_, ?_, ?_, ?_⟩ <;> simp_all
    have hnorm : ∀ t : AppState, t.isCompareMode = false → t.isStatsMode = false →
        t.isTimeSinceMode = false → t.isMaterialGroupsMode = false → t.isDetailMode = false →
        urlDetailNormalize u t = t := by
      intro t h1 h2 h3 h4 h5
      unfold urlDetailNormalize
      rw [if_neg (by simp [h5]), if_neg (by simp [h2]), if_neg (by simp [h3]),
        if_neg (by simp [h4])]
    obtain ⟨f1, f2, f3, f4, f5⟩ := hflags (urlViewPhase u s)
    rw [hnorm _ f1 f2 f3 f4 f5]
    obtain ⟨_, c1, c2, c3, c4, c5⟩ := urlComparePhase_proj u (urlSearchPhase u (urlModePhase u (urlViewPhase u s)))
    obtain ⟨_, s1, s2, s3, s4, s5⟩ := urlSearchPhase_proj u (urlModePhase u (urlViewPhase u s))
    rw [c1, c2, c3, c4, c5, s1, s2, s3, s4, s5]
    exact ⟨f1, f2, f3, f4, f5⟩

/-- C5 witness. With an unrecognized view and mode in the URL, a persisted
years view is kept, and the mode flags end up cleared. -/
theorem claim_C5_witness :
    (restoreFromURL { currentView := .years } { view := some "nope", mode := some "bogus" }).currentView
      = View.years ∧
    (restoreFromURL { isStatsMode := true } { mode := some "bogus" }).isStatsMode = false := by
  constructor
  · have h := claim_C5_amended.1 { currentView := .years } { view := some "nope", mode := some "bogus" }
      (by intro v hv; injection hv with hv; subst hv; exact ⟨by decide, by decide⟩)
    rw [h]
  · exact (claim_C5_amended.2 { isStatsMode := true } { mode := some "bogus" } "bogus" rfl
      (by decide)).2.1

/-- C9 counterexample. A snapshot carrying an invalid (non-enum) truthy
detailReturnContext is accepted verbatim instead of being ignored. -/
theorem claim_C9_counterexample :
    (restoreState defaultAppState
        (.value (.obj [("detailReturnContext", .str "bogus")]))).detailReturnContext
      = JVal.str "bogus" ∧
    defaultAppState.detailReturnContext = JVal.str "list" ∧
    JVal.str "bogus" ≠ JVal.str "list" := by
  refine ⟨rfl, rfl, by simp⟩

/-- The restored value of a type-checked boolean field. -/
theorem restoreBoolFields_get (v : JVal) (s : AppState) (p : BoolProp) :
    p.get (restoreBoolFields v s) = applyBool (p.get s) (getField v p.key) := by
  cases p <;> rfl

/-- An absent or non-boolean saved field leaves the current value. -/
theorem applyBool_invalid {f : Option JVal} (h : ∀ b, f ≠ some (.bool b)) (cur : Bool) :
    applyBool cur f = cur := by
  unfold applyBool
  cases f with
  | none => rfl
  | some w => cases w <;> first | rfl | exact absurd rfl (h _)

/-- The view-field phase only writes currentView. -/
theorem restoreViewField_preserves (v : JVal) (s : AppState) :
    (∀ p : BoolProp, p.get (restoreViewField v s) = p.get s) ∧
    (restoreViewField v s).collapsedSections = s.collapsedSections ∧
    (restoreViewField v s).detailTarget = s.detailTarget ∧
    (restoreViewField v s).detailReturnContext = s.detailReturnContext ∧
    (restoreViewField v s).isCompareMode = s.isCompareMode ∧
    (restoreViewField v s).isStatsMode = s.isStatsMode ∧
    (restoreViewField v s).isTimeSinceMode = s.isTimeSinceMode ∧
    (restoreViewField v s).isMaterialGroupsMode = s.isMaterialGroupsMode ∧
    (restoreViewField v s).isDetailMode = s.isDetailMode := by
  unfold restoreViewField
  split
  · split
    · exact ⟨fun p => by cases p <;> rfl, rfl, rfl, rfl, rfl, rfl, rfl, rfl, rfl⟩
    · split <;> exact ⟨fun p => by cases p <;> rfl, rfl, rfl, rfl, rfl, rfl, rfl, rfl, rfl⟩
  · exact ⟨fun p => by cases p <;> rfl, rfl, rfl, rfl, rfl, rfl, rfl, rfl, rfl⟩

/-- The boolean-props phase only writes the ten boolean fields. -/
theorem restoreBoolFields_preserves (v : JVal) (s : AppState) :
    (restoreBoolFields v s).currentView = s.currentView ∧
    (restoreBoolFields v s).collapsedSections = s.collapsedSections ∧
    (restoreBoolFields v s).detailTarget = s.detailTarget ∧
    (restoreBoolFields v s).detailReturnContext = s.detailReturnContext ∧
    (restoreBoolFields v s).isCompareMode = s.isCompareMode ∧
    (restoreBoolFields v s).isStatsMode = s.isStatsMode ∧
    (restoreBoolFields v s).isTimeSinceMode = s.isTimeSinceMode ∧
    (restoreBoolFields v s).isMaterialGroupsMode = s.isMaterialGroupsMode ∧
    (restoreBoolFields v s).isDetailMode = s.isDetailMode :=
  ⟨rfl, rfl, rfl, rfl, rfl, rfl, rfl, rfl, rfl⟩

/-- The collapsed-sections phase only writes collapsedSections. -/
theorem restoreCollapsedField_preserves (v : JVal) (s : AppState) :
    (restoreCollapsedField v s).currentView = s.currentView ∧
    (∀ p : BoolProp, p.get (restoreCollapsedField v s) = p.get s) ∧
    (restoreCollapsedField v s).detailTarget = s.detailTarget ∧
    (restoreCollapsedField v s).detailReturnContext = s.detailReturnContext ∧
    (restoreCollapsedField v s).isCompareMode = s.isCompareMode ∧
    (restoreCollapsedField v s).isStatsMode = s.isStatsMode ∧
    (restoreCollapsedField v s).isTimeSinceMode = s.isTimeSinceMode ∧
    (restoreCollapsedField v s).isMaterialGroupsMode = s.isMaterialGroupsMode ∧
    (restoreCollapsedField v s).isDetailMode = s.isDetailMode := by
  unfold restoreCollapsedField
  split
  · split <;> exact ⟨rfl, fun p => by cases p <;> rfl, rfl, rfl, rfl, rfl, rfl, rfl, rfl⟩
  · exact ⟨rfl, fun p => by cases p <;> rfl, rfl, rfl, rfl, rfl, rfl, rfl, rfl⟩

/-- The collapsed-sections phase ignores absent, falsy or
non-object-typed values. -/
theorem restoreCollapsedField_invalid {v : JVal} (s : AppState)
    (h : ∀ f, getField v "collapsedSections" = some f → (truthy f && isObjectType f) = false) :
    (restoreCollapsedField v s).collapsedSections = s.collapsedSections := by
  unfold restoreCollapsedField
  split
  case h_1 f hf =>
    rw [if_neg]
    simp [h f hf]
  case h_2 => rfl

/-- The mode-flag phase writes only the three restored flags. -/
theorem restoreModeFlagFields_preserves (v : JVal) (s : AppState) :
    (restoreModeFlagFields v s).currentView = s.currentView ∧
    (∀ p : BoolProp, p.get (restoreModeFlagFields v s) = p.get s) ∧
    (restoreModeFlagFields v s).collapsedSections = s.collapsedSections ∧
    (restoreModeFlagFields v s).detailTarget = s.detailTarget ∧
    (restoreModeFlagFields v s).detailReturnContext = s.detailReturnContext ∧
    (restoreModeFlagFields v s).isMaterialGroupsMode = s.isMaterialGroupsMode ∧
    (restoreModeFlagFields v s).isDetailMode = s.isDetailMode :=
  ⟨rfl, fun p => by cases p <;> rfl, rfl, rfl, rfl, rfl, rfl⟩

/-- The three restored mode flags after the mode-flag phase. -/
theorem restoreModeFlagFields_get (v : JVal) (s : AppState) :
    (restoreModeFlagFields v s).isCompareMode
        = applyBool s.isCompareMode (getField v "isCompareMode") ∧
    (restoreModeFlagFields v s).isStatsMode
        = applyBool s.isStatsMode (getField v "isStatsMode") ∧
    (restoreModeFlagFields v s).isTimeSinceMode
        = applyBool s.isTimeSinceMode (getField v "isTimeSinceMode") :=
  ⟨rfl, rfl, rfl⟩

/-- The mutual-exclusion normalisation only writes mode flags. -/
theorem normalizeModeFlags_preserves (s : AppState) :
    (normalizeModeFlags s).currentView = s.currentView ∧
    (∀ p : BoolProp, p.get (normalizeModeFlags s) = p.get s) ∧
    (normalizeModeFlags s).collapsedSections = s.collapsedSections ∧
    (normalizeModeFlags s).detailTarget = s.detailTarget ∧
    (normalizeModeFlags s).detailReturnContext = s.detailReturnContext := by
  unfold normalizeModeFlags
  dsimp only
  split <;> (try dsimp only) <;> (try split) <;> (try dsimp only) <;> (try split) <;>
    (try dsimp only) <;> exact ⟨rfl, fun p => by cases p <;> rfl, rfl, rfl, rfl⟩

/-- With all three restored flags false the normalisation is the
identity. -/
theorem normalizeModeFlags_of_false {s : AppState} (h1 : s.isStatsMode = false)
    (h2 : s.isTimeSinceMode = false) (h3 : s.isMaterialGroupsMode = false) :
    normalizeModeFlags s = s := by
  simp [normalizeModeFlags, h1, h2, h3]

/-- The detail-flag sub-phase only writes isDetailMode. -/
theorem restoreDetailFlagField_preserves (v : JVal) (s : AppState) :
    (restoreDetailFlagField v s).currentView = s.currentView ∧
    (∀ p : BoolProp, p.get (restoreDetailFlagField v s) = p.get s) ∧
    (restoreDetailFlagField v s).collapsedSections = s.collapsedSections ∧
    (restoreDetailFlagField v s).detailTarget = s.detailTarget ∧
    (restoreDetailFlagField v s).detailReturnContext = s.detailReturnContext ∧
    (restoreDetailFlagField v s).isCompareMode = s.isCompareMode ∧
    (restoreDetailFlagField v s).isStatsMode = s.isStatsMode ∧
    (restoreDetailFlagField v s).isTimeSinceMode = s.isTimeSinceMode ∧
    (restoreDetailFlagField v s).isMaterialGroupsMode = s.isMaterialGroupsMode :=
  ⟨rfl, fun p => by cases p <;> rfl, rfl, rfl, rfl, rfl, rfl, rfl, rfl⟩

/-- The detail-target sub-phase only writes the two target fields. -/
theorem restoreDetailTargetField_preserves (v : JVal) (s : AppState) :
    (restoreDetailTargetField v s).currentView = s.currentView ∧
    (∀ p : BoolProp, p.get (restoreDetailTargetField v s) = p.get s) ∧
    (restoreDetailTargetField v s).collapsedSections = s.collapsedSections ∧
    (restoreDetailTargetField v s).detailReturnContext = s.detailReturnContext ∧
    (restoreDetailTargetField v s).isCompareMode = s.isCompareMode ∧
    (restoreDetailTargetField v s).isStatsMode = s.isStatsMode ∧
    (restoreDetailTargetField v s).isTimeSinceMode = s.isTimeSinceMode ∧
    (restoreDetailTargetField v s).isMaterialGroupsMode = s.isMaterialGroupsMode ∧
    (restoreDetailTargetField v s).isDetailMode = s.isDetailMode := by
  unfold restoreDetailTargetField
  split
  · split <;> exact ⟨rfl, fun p => by cases p <;> rfl, rfl, rfl, rfl, rfl, rfl, rfl, rfl⟩
  · exact ⟨rfl, fun p => by cases p <;> rfl, rfl, rfl, rfl, rfl, rfl, rfl, rfl⟩

/-- The detail-context sub-phase only writes detailReturnContext. -/
theorem restoreDetailCtxField_preserves (v : JVal) (s : AppState) :
    (restoreDetailCtxField v s).currentView = s.currentView ∧
    (∀ p : BoolProp, p.get (restoreDetailCtxField v s) = p.get s) ∧
    (restoreDetailCtxField v s).collapsedSections = s.collapsedSections ∧
    (restoreDetailCtxField v s).detailTarget = s.detailTarget ∧
    (restoreDetailCtxField v s).isCompareMode = s.isCompareMode ∧
    (restoreDetailCtxField v s).isStatsMode = s.isStatsMode ∧
    (restoreDetailCtxField v s).isTimeSinceMode = s.isTimeSinceMode ∧
    (restoreDetailCtxField v s).isMaterialGroupsMode = s.isMaterialGroupsMode ∧
    (restoreDetailCtxField v s).isDetailMode = s.isDetailMode := by
  unfold restoreDetailCtxField
  split
  · split <;> exact ⟨rfl, fun p => by cases p <;> rfl, rfl, rfl, rfl, rfl, rfl, rfl, rfl⟩
  · exact ⟨rfl, fun p => by cases p <;> rfl, rfl, rfl, rfl, rfl, rfl, rfl, rfl⟩

/-- The detail-mode normalisation only writes mode flags. -/
theorem normalizeDetailFlags_preserves (s : AppState) :
    (normalizeDetailFlags s).currentView = s.currentView ∧
    (∀ p : BoolProp, p.get (normalizeDetailFlags s) = p.get s) ∧
    (normalizeDetailFlags s).collapsedSections = s.collapsedSections ∧
    (normalizeDetailFlags s).detailTarget = s.detailTarget ∧
    (normalizeDetailFlags s).detailReturnContext = s.detailReturnContext := by
  unfold normalizeDetailFlags
  split <;> exact ⟨rfl, fun p => by cases p <;> rfl, rfl, rfl, rfl⟩

/-- Outside detail mode the detail normalisation is the identity. -/
theorem normalizeDetailFlags_of_false {s : AppState} (h : s.isDetailMode = false) :
    normalizeDetailFlags s = s := by
  unfold normalizeDetailFlags
  rw [if_neg (by simp [h])]

/-- The compare-ids phase only writes the stashed ids. -/
theorem restoreCompareIdsField_preserves (v : JVal) (s : AppState) :
    (restoreCompareIdsField v s).currentView = s.currentView ∧
    (∀ p : BoolProp, p.get (restoreCompareIdsField v s) = p.get s) ∧
    (restoreCompareIdsField v s).collapsedSections = s.collapsedSections ∧
    (restoreCompareIdsField v s).detailTarget = s.detailTarget ∧
    (restoreCompareIdsField v s).detailReturnContext = s.detailReturnContext ∧
    (restoreCompareIdsField v s).isCompareMode = s.isCompareMode ∧
    (restoreCompareIdsField v s).isStatsMode = s.isStatsMode ∧
    (restoreCompareIdsField v s).isTimeSinceMode = s.isTimeSinceMode ∧
    (restoreCompareIdsField v s).isMaterialGroupsMode = s.isMaterialGroupsMode ∧
    (restoreCompareIdsField v s).isDetailMode = s.isDetailMode := by
  unfold restoreCompareIdsField
  split <;> exact ⟨rfl, fun p => by cases p <;> rfl, rfl, rfl, rfl, rfl, rfl, rfl, rfl, rfl⟩

/-- The view-field phase ignores absent, non-string and non-enum values. -/
theorem restoreViewField_invalid {v : JVal} (s : AppState)
    (h : ∀ sv, getField v "currentView" = some (.str sv) → sv ≠ "versions" ∧ sv ≠ "years") :
    (restoreViewField v s).currentView = s.currentView := by
  unfold restoreViewField
  split
  case h_1 sv hf =>
    obtain ⟨h1, h2⟩ := h sv hf
    rw [if_neg h1, if_neg h2]
  case h_2 => rfl

/-- The detail-target sub-phase ignores falsy or absent values. -/
theorem restoreDetailTargetField_invalid {v : JVal} (s : AppState)
    (h : ∀ f, getField v "detailTarget" = some f → truthy f = false) :
    (restoreDetailTargetField v s).detailTarget = s.detailTarget := by
  unfold restoreDetailTargetField
  split
  case h_1 f hf => rw [if_neg (by simp [h f hf])]
  case h_2 => rfl

/-- The detail-context sub-phase ignores falsy or absent values. -/
theorem restoreDetailCtxField_invalid {v : JVal} (s : AppState)
    (h : ∀ f, getField v "detailReturnContext" = some f → truthy f = false) :
    (restoreDetailCtxField v s).detailReturnContext = s.detailReturnContext := by
  unfold restoreDetailCtxField
  split
  case h_1 f hf => rw [if_neg (by simp [h f hf])]
  case h_2 => rfl

/-- An invalid saved currentView leaves the prior view through the whole
field-restoration pipeline. -/
theorem restoreStateApply_view_invalid (s : AppState) (v : JVal)
    (h : ∀ sv, getField v "currentView" = some (.str sv) → sv ≠ "versions" ∧ sv ≠ "years") :
    (restoreStateApply s v).currentView = s.currentView := by
  unfold restoreStateApply restoreDetailFields
  rw [(restoreCompareIdsField_preserves v _).1,
      (normalizeDetailFlags_preserves _).1,
      (restoreDetailCtxField_preserves v _).1,
      (restoreDetailTargetField_preserves v _).1,
      (restoreDetailFlagField_preserves v _).1,
      (normalizeModeFlags_preserves _).1,
      (restoreModeFlagFields_preserves v _).1,
      (restoreCollapsedField_preserves v _).1,
      (restoreBoolFields_preserves v _).1,
      restoreViewField_invalid s h]

/-- An absent or non-boolean saved boolean field leaves the prior value
through the whole field-restoration pipeline. -/
theorem restoreStateApply_bool_invalid (s : AppState) (v : JVal) (p : BoolProp)
    (h : ∀ b, getField v p.key ≠ some (.bool b)) :
    p.get (restoreStateApply s v) = p.get s := by
  unfold restoreStateApply restoreDetailFields
  rw [(restoreCompareIdsField_preserves v _).2.1 p,
      (normalizeDetailFlags_preserves _).2.1 p,
      (restoreDetailCtxField_preserves v _).2.1 p,
      (restoreDetailTargetField_preserves v _).2.1 p,
      (restoreDetailFlagField_preserves v _).2.1 p,
      (normalizeModeFlags_preserves _).2.1 p,
      (restoreModeFlagFields_preserves v _).2.1 p,
      (restoreCollapsedField_preserves v _).2.1 p,
      restoreBoolFields_get v _ p, applyBool_invalid h,
      (restoreViewField_preserves v s).1 p]

/-- An invalid saved collapsedSections leaves the prior value through the
whole field-restoration pipeline. -/
theorem restoreStateApply_collapsed_invalid (s : AppState) (v : JVal)
    (h : ∀ f, getField v "collapsedSections" = some f → (truthy f && isObjectType f) = false) :
    (restoreStateApply s v).collapsedSections = s.collapsedSections := by
  unfold restoreStateApply restoreDetailFields
  rw [(restoreCompareIdsField_preserves v _).2.2.1,
      (normalizeDetailFlags_preserves _).2.2.1,
      (restoreDetailCtxField_preserves v _).2.2.1,
      (restoreDetailTargetField_preserves v _).2.2.1,
      (restoreDetailFlagField_preserves v _).2.2.1,
      (normalizeModeFlags_preserves _).2.2.1,
      (restoreModeFlagFields_preserves v _).2.2.1,
      restoreCollapsedField_invalid _ h,
      (restoreBoolFields_preserves v _).2.1,
      (restoreViewField_preserves v s).2.1]

/-- A falsy or absent saved detailTarget leaves the prior value through
the whole field-restoration pipeline. -/
theorem restoreStateApply_target_invalid (s : AppState) (v : JVal)
    (h : ∀ f, getField v "detailTarget" = some f → truthy f = false) :
    (restoreStateApply s v).detailTarget = s.detailTarget := by
  unfold restoreStateApply restoreDetailFields
  rw [(restoreCompareIdsField_preserves v _).2.2.2.1,
      (normalizeDetailFlags_preserves _).2.2.2.1,
      (restoreDetailCtxField_preserves v _).2.2.2.1,
      restoreDetailTargetField_invalid _ h,
      (restoreDetailFlagField_preserves v _).2.2.2.1,
      (normalizeModeFlags_preserves _).2.2.2.1,
      (restoreModeFlagFields_preserves v _).2.2.2.1,
      (restoreCollapsedField_preserves v _).2.2.1,
      (restoreBoolFields_preserves v _).2.2.1,
      (restoreViewField_preserves v s).2.2.1]

/-- A falsy or absent saved detailReturnContext leaves the prior value
through the whole field-restoration pipeline. -/
theorem restoreStateApply_ctx_invalid (s : AppState) (v : JVal)
    (h : ∀ f, getField v "detailReturnContext" = some f → truthy f = false) :
    (restoreStateApply s v).detailReturnContext = s.detailReturnContext := by
  unfold restoreStateApply restoreDetailFields
  rw [(restoreCompareIdsField_preserves v _).2.2.2.2.1,
      (normalizeDetailFlags_preserves _).2.2.2.2,
      restoreDetailCtxField_invalid _ h,
      (restoreDetailTargetField_preserves v _).2.2.2.1,
      (restoreDetailFlagField_preserves v _).2.2.2.2.1,
      (normalizeModeFlags_preserves _).2.2.2.2,
      (restoreModeFlagFields_preserves v _).2.2.2.2.1,
      (restoreCollapsedField_preserves v _).2.2.2.1,
      (restoreBoolFields_preserves v _).2.2.2.1,
      (restoreViewField_preserves v s).2.2.2.1]

/-- The first three restoration phases do not touch the mode flags. -/
theorem phase3_flags (v : JVal) (s : AppState) :
    (restoreCollapsedField v (restoreBoolFields v (restoreViewField v s))).isCompareMode
      = s.isCompareMode ∧
    (restoreCollapsedField v (restoreBoolFields v (restoreViewField v s))).isStatsMode
      = s.isStatsMode ∧
    (restoreCollapsedField v (restoreBoolFields v (restoreViewField v s))).isTimeSinceMode
      = s.isTimeSinceMode ∧
    (restoreCollapsedField v (restoreBoolFields v (restoreViewField v s))).isMaterialGroupsMode
      = s.isMaterialGroupsMode ∧
    (restoreCollapsedField v (restoreBoolFields v (restoreViewField v s))).isDetailMode
      = s.isDetailMode := by
  obtain ⟨_, _, _, _, c1, s1, t1, m1, d1⟩ := restoreViewField_preserves v s
  obtain ⟨_, _, _, _, c2, s2, t2, m2, d2⟩ := restoreBoolFields_preserves v (restoreViewField v s)
  obtain ⟨_, _, _, _, c3, s3, t3, m3, d3⟩ :=
    restoreCollapsedField_preserves v (restoreBoolFields v (restoreViewField v s))
  exact ⟨c3.trans (c2.trans c1), s3.trans (s2.trans s1), t3.trans (t2.trans t1),
         m3.trans (m2.trans m1), d3.trans (d2.trans d1)⟩

/-- From the default state, invalid saved mode-flag fields leave all five
mode flags false through the whole field-restoration pipeline. -/
theorem restoreStateApply_flags_default (v : JVal)
    (hc : ∀ b, getField v "isCompareMode" ≠ some (.bool b))
    (hs : ∀ b, getField v "isStatsMode" ≠ some (.bool b))
    (ht : ∀ b, getField v "isTimeSinceMode" ≠ some (.bool b))
    (hd : ∀ b, getField v "isDetailMode" ≠ some (.bool b)) :
    (restoreStateApply defaultAppState v).isCompareMode = false ∧
    (restoreStateApply defaultAppState v).isStatsMode = false ∧
    (restoreStateApply defaultAppState v).isTimeSinceMode = false ∧
    (restoreStateApply defaultAppState v).isMaterialGroupsMode = false ∧
    (restoreStateApply defaultAppState v).isDetailMode = false := by
  unfold restoreStateApply restoreDetailFields
  set q3 := restoreCollapsedField v (restoreBoolFields v (restoreViewField v defaultAppState))
    with hq3
  obtain ⟨c3, s3, t3, m3, d3⟩ := phase3_flags v defaultAppState
  rw [← hq3] at c3 s3 t3 m3 d3
  set q4 := restoreModeFlagFields v q3 with hq4
  have c4 : q4.isCompareMode = false := by
    rw [hq4, (restoreModeFlagFields_get v q3).1, applyBool_invalid hc, c3]
    rfl
  have s4 : q4.isStatsMode = false := by
    rw [hq4, (restoreModeFlagFields_get v q3).2.1, applyBool_invalid hs, s3]
    rfl
  have t4 : q4.isTimeSinceMode = false := by
    rw [hq4, (restoreModeFlagFields_get v q3).2.2, applyBool_invalid ht, t3]
    rfl
  have m4 : q4.isMaterialGroupsMode = false := by
    rw [hq4, (restoreModeFlagFields_preserves v q3).2.2.2.2.2.1, m3]
    rfl
  have d4 : q4.isDetailMode = false := by
    rw [hq4, (restoreModeFlagFields_preserves v q3).2.2.2.2.2.2, d3]
    rfl
  rw [normalizeModeFlags_of_false s4 t4 m4]
  set q5 := restoreDetailFlagField v q4 with hq5
  have c5 : q5.isCompareMode = false := by
    rw [hq5, (restoreDetailFlagField_preserves v q4).2.2.2.2.2.1, c4]
  have s5 : q5.isStatsMode = false := by
    rw [hq5, (restoreDetailFlagField_preserves v q4).2.2.2.2.2.2.1, s4]
  have t5 : q5.isTimeSinceMode = false := by
    rw [hq5, (restoreDetailFlagField_preserves v q4).2.2.2.2.2.2.2.1, t4]
  have m5 : q5.isMaterialGroupsMode = false := by
    rw [hq5, (restoreDetailFlagField_preserves v q4).2.2.2.2.2.2.2.2, m4]
  have d5 : q5.isDetailMode = false := by
    rw [hq5]
    show applyBool q4.isDetailMode (getField v "isDetailMode") = false
    rw [applyBool_invalid hd, d4]
  set q6 := restoreDetailTargetField v q5 with hq6
  have c6 : q6.isCompareMode = false := by
    rw [hq6, (restoreDetailTargetField_preserves v q5).2.2.2.2.1, c5]
  have s6 : q6.isStatsMode = false := by
    rw [hq6, (restoreDetailTargetField_preserves v q5).2.2.2.2.2.1, s5]
  have t6 : q6.isTimeSinceMode = false := by
    rw [hq6, (restoreDetailTargetField_preserves v q5).2.2.2.2.2.2.1, t5]
  have m6 : q6.isMaterialGroupsMode = false := by
    rw [hq6, (restoreDetailTargetField_preserves v q5).2.2.2.2.2.2.2.1, m5]
  have d6 : q6.isDetailMode = false := by
    rw [hq6, (restoreDetailTargetField_preserves v q5).2.2.2.2.2.2.2.2, d5]
  set q7 := restoreDetailCtxField v q6 with hq7
  have c7 : q7.isCompareMode = false := by
    rw [hq7, (restoreDetailCtxField_preserves v q6).2.2.2.2.1, c6]
  have s7 : q7.isStatsMode = false := by
    rw [hq7, (restoreDetailCtxField_preserves v q6).2.2.2.2.2.1, s6]
  have t7 : q7.isTimeSinceMode = false := by
    rw [hq7, (restoreDetailCtxField_preserves v q6).2.2.2.2.2.2.1, t6]
  have m7 : q7.isMaterialGroupsMode = false := by
    rw [hq7, (restoreDetailCtxField_preserves v q6).2.2.2.2.2.2.2.1, m6]
  have d7 : q7.isDetailMode = false := by
    rw [hq7, (restoreDetailCtxField_preserves v q6).2.2.2.2.2.2.2.2, d6]
  rw [normalizeDetailFlags_of_false d7]
  refine ⟨?_, ?_, ?_, ?_, ?_⟩
  · rw [(restoreCompareIdsField_preserves v q7).2.2.2.2.2.1, c7]
  · rw [(restoreCompareIdsField_preserves v q7).2.2.2.2.2.2.1, s7]
  · rw [(restoreCompareIdsField_preserves v q7).2.2.2.2.2.2.2.1, t7]
  · rw [(restoreCompareIdsField_preserves v q7).2.2.2.2.2.2.2.2.1, m7]
  · rw [(restoreCompareIdsField_preserves v q7).2.2.2.2.2.2.2.2.2, d7]

/-- C9, amended. Persistence failures are non-fatal: restoring from a
missing, corrupt, or null snapshot leaves the state unchanged, and saving
never raises even when the store write fails. For a parsed snapshot
object, the validated fields (currentView, the ten checked booleans,
collapsedSections) keep their prior value when the saved field is absent
or invalid, detailTarget and detailReturnContext keep their prior value
when the saved field is absent or falsy (but a truthy value of any shape
is accepted verbatim, see the counterexample), and from the default state
absent-or-invalid mode flags leave all five mode flags false. -/
theorem claim_C9_amended :
    (∀ s : AppState, restoreState s .missing = s ∧ restoreState s .corrupt = s ∧
      restoreState s (.value .null) = s) ∧
    (∀ w, saveStateCaught w = .ok ()) ∧
    (∀ (s : AppState) (e : StoredEntry),
      (∀ v sv, e = .value v → getField v "currentView" = some (.str sv) →
        sv ≠ "versions" ∧ sv ≠ "years") →
      (restoreState s e).currentView = s.currentView) ∧
    (∀ (s : AppState) (e : StoredEntry) (p : BoolProp),
      (∀ v b, e = .value v → getField v p.key ≠ some (.bool b)) →
      p.get (restoreState s e) = p.get s) ∧
    (∀ (s : AppState) (e : StoredEntry),
      (∀ v f, e = .value v → getField v "collapsedSections" = some f →
        (truthy f && isObjectType f) = false) →
      (restoreState s e).collapsedSections = s.collapsedSections) ∧
    (∀ (s : AppState) (e : StoredEntry),
      (∀ v f, e = .value v → getField v "detailTarget" = some f → truthy f = false) →
      (restoreState s e).detailTarget = s.detailTarget) ∧
    (∀ (s : AppState) (e : StoredEntry),
      (∀ v f, e = .value v → getField v "detailReturnContext" = some f → truthy f = false) →
      (restoreState s e).detailReturnContext = s.detailReturnContext) ∧
    (∀ v : JVal,
      (∀ b, getField v "isCompareMode" ≠ some (.bool b)) →
      (∀ b, getField v "isStatsMode" ≠ some (.bool b)) →
      (∀ b, getField v "isTimeSinceMode" ≠ some (.bool b)) →
      (∀ b, getField v "isDetailMode" ≠ some (.bool b)) →
      (restoreState defaultAppState (.value v)).isCompareMode = false ∧
      (restoreState defaultAppState (.value v)).isStatsMode = false ∧
      (restoreState defaultAppState (.value v)).isTimeSinceMode = false ∧
      (restoreState defaultAppState (.value v)).isMaterialGroupsMode = false ∧
      (restoreState defaultAppState (.value v)).isDetailMode = false) := by
  refine ⟨fun s => ⟨rfl, rfl, rfl⟩, fun w => by cases w <;> rfl, ?_, ?_, ?_, ?_, ?_, ?_⟩
  · intro s e h
    cases e with
    | missing => rfl
    | corrupt => rfl
    | value v =>
      cases v <;>
        first
        | rfl
        | exact restoreStateApply_view_invalid s _ (fun sv hsv => h _ sv rfl hsv)
  · intro s e p h
    cases e with
    | missing => rfl
    | corrupt => rfl
    | value v =>
      cases v <;>
        first
        | rfl
        | exact restoreStateApply_bool_invalid s _ p (fun b => h _ b rfl)
  · intro s e h
    cases e with
    | missing => rfl
    | corrupt => rfl
    | value v =>
      cases v <;>
        first
        | rfl
        | exact restoreStateApply_collapsed_invalid s _ (fun f hf => h _ f rfl hf)
  · intro s e h
    cases e with
    | missing => rfl
    | corrupt => rfl
    | value v =>
      cases v <;>
        first
        | rfl
        | exact restoreStateApply_target_invalid s _ (fun f hf => h _ f rfl hf)
  · intro s e h
    cases e with
    | missing => rfl
    | corrupt => rfl
    | value v =>
      cases v <;>
        first
        | rfl
        | exact restoreStateApply_ctx_invalid s _ (fun f hf => h _ f rfl hf)
  · intro v hc hs ht hd
    cases v with
    | null => exact ⟨rfl, rfl, rfl, rfl, rfl⟩
    | bool b => exact restoreStateApply_flags_default _ hc hs ht hd
    | num n => exact restoreStateApply_flags_default _ hc hs ht hd
    | str t => exact restoreStateApply_flags_default _ hc hs ht hd
    | arr xs => exact restoreStateApply_flags_default _ hc hs ht hd
    | obj fs => exact restoreStateApply_flags_default _ hc hs ht hd

/-- C9 witness: a snapshot whose currentView value is not a known view
name leaves both the view and the mode flags at their defaults, and a
failing store write still returns normally. -/
theorem claim_C9_witness :
    (restoreState defaultAppState
        (.value (JVal.obj [("currentView", JVal.str "galaxy")]))).currentView
      = defaultAppState.currentView ∧
    (restoreState defaultAppState
        (.value (JVal.obj [("currentView", JVal.str "galaxy")]))).isCompareMode = false ∧
    saveStateCaught true = .ok () := by
  refine ⟨claim_C9_amended.2.2.1 defaultAppState _ ?_,
          (claim_C9_amended.2.2.2.2.2.2.2 _ ?_ ?_ ?_ ?_).1,
          claim_C9_amended.2.1 true⟩
  · intro v sv hv hsv
    injection hv with hv'
    subst hv'
    rw [show getField (JVal.obj [("currentView", JVal.str "galaxy")]) "currentView"
          = some (JVal.str "galaxy") from rfl] at hsv
    injection hsv with h1
    injection h1 with h2
    exact h2 ▸ ⟨by decide, by decide⟩
  · intro b hb
    rw [show getField (JVal.obj [("currentView", JVal.str "galaxy")]) "isCompareMode"
          = (none : Option JVal) from rfl] at hb
    exact Option.noConfusion hb
  · intro b hb
    rw [show getField (JVal.obj [("currentView", JVal.str "galaxy")]) "isStatsMode"
          = (none : Option JVal) from rfl] at hb
    exact Option.noConfusion hb
  · intro b hb
    rw [show getField (JVal.obj [("currentView", JVal.str "galaxy")]) "isTimeSinceMode"
          = (none : Option JVal) from rfl] at hb
    exact Option.noConfusion hb
  · intro b hb
    rw [show getField (JVal.obj [("currentView", JVal.str "galaxy")]) "isDetailMode"
          = (none : Option JVal) from rfl] at hb
    exact Option.noConfusion hb

/-- digitChar and digitVal invert each other on decimal digits. -/
theorem digitVal_digitChar (m : Nat) (h : m < 10) : digitVal (Nat.digitChar m) = m := by
  interval_cases m <;> rfl

/-- One unfolding of the fuelled core of Nat.repr. -/
theorem toDigitsCore_succ (fuel n : Nat) (ds : List Char) :
    Nat.toDigitsCore 10 (fuel + 1) n ds =
      if n / 10 = 0 then Nat.digitChar (n % 10) :: ds
      else Nat.toDigitsCore 10 fuel (n / 10) (Nat.digitChar (n % 10) :: ds) := rfl

/-- The fuelled core of Nat.repr agrees with natChars whenever the fuel
covers the number of digits. -/
theorem toDigitsCore_eq_natChars (fuel : Nat) :
    ∀ (n : Nat) (ds : List Char), n < 10 ^ (fuel + 1) →
      Nat.toDigitsCore 10 (fuel + 1) n ds = natChars n ++ ds := by
  induction fuel with
  | zero =>
    intro n ds h
    have h10 : n < 10 := by simpa using h
    rw [toDigitsCore_succ, if_pos (Nat.div_eq_of_lt h10), natChars, dif_pos h10,
        Nat.mod_eq_of_lt h10]
    rfl
  | succ fuel ih =>
    intro n ds h
    by_cases h10 : n < 10
    · rw [toDigitsCore_succ, if_pos (Nat.div_eq_of_lt h10), natChars, dif_pos h10,
          Nat.mod_eq_of_lt h10]
      rfl
    · have hne : n / 10 ≠ 0 := by omega
      have hb : n / 10 < 10 ^ (fuel + 1) := by
        rw [Nat.div_lt_iff_lt_mul (by omega), ← pow_succ]
        exact h
      rw [toDigitsCore_succ, if_neg hne, ih (n / 10) _ hb]
      conv_rhs => rw [natChars]
      rw [dif_neg h10]
      simp

/-- Nat.repr produces exactly the natChars digit string. -/
theorem repr_eq_natChars (n : Nat) : Nat.repr n = (natChars n).asString := by
  unfold Nat.repr Nat.toDigits
  rw [toDigitsCore_eq_natChars n n []
        (lt_of_lt_of_le (Nat.lt_pow_self (by omega) n)
          (Nat.pow_le_pow_right (by omega) (by omega))),
      List.append_nil]

/-- charsVal over a trailing digit. -/
theorem charsVal_append_digit (xs : List Char) (c : Char) :
    charsVal (xs ++ [c]) = 10 * charsVal xs + digitVal c := by
  unfold charsVal
  rw [List.foldl_append]
  rfl

/-- charsVal recovers the number from its natChars digits. -/
theorem charsVal_natChars (n : Nat) : charsVal (natChars n) = n := by
  induction n using Nat.strong_induction_on with
  | _ n ih =>
    rw [natChars]
    split
    case isTrue h =>
      show charsVal [Nat.digitChar n] = n
      unfold charsVal
      simp [List.foldl, digitVal_digitChar n h]
    case isFalse h =>
      rw [charsVal_append_digit,
          ih (n / 10) (Nat.div_lt_self (by omega) (by omega)),
          digitVal_digitChar _ (Nat.mod_lt _ (by omega))]
      omega

/-- Decimal printing of natural numbers is injective. -/
theorem repr_nat_inj {a b : Nat} (h : Nat.repr a = Nat.repr b) : a = b := by
  rw [repr_eq_natChars, repr_eq_natChars] at h
  have h2 : natChars a = natChars b := congrArg String.data h
  calc a = charsVal (natChars a) := (charsVal_natChars a).symm
    _ = charsVal (natChars b) := congrArg charsVal h2
    _ = b := charsVal_natChars b

/-- Membership in the year-key list is having a contributing record. -/
theorem mem_yearKeysDesc (updates : List UpdateRecord) (y : Nat) :
    y ∈ yearKeysDesc updates ↔ ∃ r ∈ updates, recYear r = some y := by
  unfold yearKeysDesc
  rw [(List.perm_insertionSort natGeRel _).mem_iff, List.mem_dedup, List.mem_filterMap]

/-- The year-key list has no duplicates. -/
theorem yearKeysDesc_nodup (updates : List UpdateRecord) :
    (yearKeysDesc updates).Nodup :=
  (List.perm_insertionSort natGeRel _).nodup_iff.mpr (List.nodup_dedup _)

/-- The group names are the decimal forms of the year keys. -/
theorem groupByYear_names (updates : List UpdateRecord) :
    (groupByYear updates).map YearGroup.name = (yearKeysDesc updates).map Nat.repr := by
  unfold groupByYear
  rw [List.map_map]
  rfl

/-- filterMap recYear ignores the records recYear drops. -/
theorem filterMap_recYear_filter (updates : List UpdateRecord) :
    (updates.filter (fun r => (recYear r).isSome)).filterMap recYear
      = updates.filterMap recYear := by
  induction updates with
  | nil => rfl
  | cons a l ih =>
    cases hr : recYear a <;>
      simp [List.filter_cons, List.filterMap_cons, hr, ih]

/-- Per-year record filtering ignores the records recYear drops. -/
theorem filter_recYear_filter (updates : List UpdateRecord) (y : Nat) :
    (updates.filter (fun r => (recYear r).isSome)).filter (fun r => recYear r = some y)
      = updates.filter (fun r => recYear r = some y) := by
  induction updates with
  | nil => rfl
  | cons a l ih =>
    cases hr : recYear a with
    | none =>
      have h1 : (recYear a).isSome = false := by rw [hr]; rfl
      have h2 : decide (recYear a = some y) = false := by rw [hr]; simp
      simp [List.filter_cons, h1, h2, ih]
    | some z =>
      have h1 : (recYear a).isSome = true := by rw [hr]; rfl
      simp only [List.filter_cons, h1, if_true]
      split <;> simp [ih]

/-- Added objects built from pointwise-equal functions are equal. -/
theorem Added.ofFun_congr {f g : ContentType → List Item} (h : ∀ t, f t = g t) :
    Added.ofFun f = Added.ofFun g := by
  simp only [Added.ofFun, h]

/-- A year group does not change when the dropped records are removed. -/
theorem yearGroupOf_filter_isSome (updates : List UpdateRecord) (y : Nat) :
    yearGroupOf (updates.filter (fun r => (recYear r).isSome)) y = yearGroupOf updates y := by
  unfold yearGroupOf
  congr 1
  exact Added.ofFun_congr (fun t => by rw [filter_recYear_filter])

/-- groupByYear does not change when the dropped records are removed. -/
theorem groupByYear_filter_isSome (updates : List UpdateRecord) :
    groupByYear (updates.filter (fun r => (recYear r).isSome)) = groupByYear updates := by
  unfold groupByYear yearKeysDesc
  rw [filterMap_recYear_filter]
  exact List.map_congr_left (fun y _ => yearGroupOf_filter_isSome updates y)

/-- C7 counterexample. A record whose date parses with year 0 has a
parseable year yet is dropped from every year group by the falsy-year
guard if (!year) return acc. -/
theorem claim_C7_counterexample :
    parseDate exYearZero.release_date = some { year := 0, month := 6, day := 15 } ∧
    exYearZero.added.blocks ≠ [] ∧
    groupByYear [exYearZero] = [] := by
  refine ⟨by decide, by decide, by decide⟩

/-- C7, amended. Year grouping over the nonzero parsed years: a year key
is present exactly when some record maps to it, the groups are the key
list mapped through yearGroupOf, group names are distinct, each group
concatenates the matching records' arrays in input order, a present year
names exactly one group, records dropped by recYear (no parse, or the
falsy year 0) never influence the result, recYear keeps exactly the
nonzero parsed years, and the spec's two-record example produces one
group named 2021 with both blocks items in order. -/
theorem claim_C7_amended :
    (∀ (updates : List UpdateRecord) (y : Nat),
      y ∈ yearKeysDesc updates ↔ ∃ r ∈ updates, recYear r = some y) ∧
    (∀ updates : List UpdateRecord,
      groupByYear updates = (yearKeysDesc updates).map (yearGroupOf updates)) ∧
    (∀ updates : List UpdateRecord, ((groupByYear updates).map YearGroup.name).Nodup) ∧
    (∀ (updates : List UpdateRecord) (y : Nat) (t : ContentType),
      (yearGroupOf updates y).added.get t
        = (updates.filter (fun r => recYear r = some y)).flatMap (fun r => r.added.get t)) ∧
    (∀ (updates : List UpdateRecord) (y : Nat),
      (∃ r ∈ updates, recYear r = some y) →
      ((groupByYear updates).filter (fun g => g.name == Nat.repr y)).length = 1) ∧
    (∀ updates : List UpdateRecord,
      groupByYear (updates.filter (fun r => (recYear r).isSome)) = groupByYear updates) ∧
    (∀ (r : UpdateRecord) (y : Nat),
      recYear r = some y ↔
        ∃ d, parseDate r.release_date = some d ∧ d.year = y ∧ y ≠ 0) ∧
    (groupByYear [exMar, exSep]
      = [{ name := "2021", type := "year", added := { blocks := [itB1, itB2] } }]) := by
  refine ⟨mem_yearKeysDesc, fun _ => rfl, ?_, fun updates y t => ?_, ?_, groupByYear_filter_isSome,
          ?_, by decide⟩
  · intro updates
    rw [groupByYear_names]
    exact (yearKeysDesc_nodup updates).map (fun a b hab => repr_nat_inj hab)
  · exact Added.get_ofFun _ t
  · intro updates y hy
    have hmem : Nat.repr y ∈ (groupByYear updates).map YearGroup.name := by
      rw [groupByYear_names]
      exact List.mem_map_of_mem Nat.repr ((mem_yearKeysDesc updates y).mpr hy)
    have hnd : ((groupByYear updates).map YearGroup.name).Nodup := by
      rw [groupByYear_names]
      exact (yearKeysDesc_nodup updates).map (fun a b hab => repr_nat_inj hab)
    calc ((groupByYear updates).filter (fun g => g.name == Nat.repr y)).length
        = List.countP (fun g => g.name == Nat.repr y) (groupByYear updates) :=
          (List.countP_eq_length_filter _ _).symm
      _ = List.countP ((fun s => s == Nat.repr y) ∘ YearGroup.name) (groupByYear updates) := rfl
      _ = List.countP (fun s => s == Nat.repr y) ((groupByYear updates).map YearGroup.name) :=
          (List.countP_map _ _ _).symm
      _ = List.count (Nat.repr y) ((groupByYear updates).map YearGroup.name) := rfl
      _ = 1 := List.count_eq_one_of_mem hnd hmem
  · intro r y
    unfold recYear
    cases hp : parseDate r.release_date with
    | none => simp
    | some d =>
      by_cases hz : d.year = 0
      · simp [hz]
        omega
      · simp [hz]
        omega

/-- C7 witness: in the two-record example the present year 2021 names
exactly one group. -/
theorem claim_C7_witness :
    ((groupByYear [exMar, exSep]).filter (fun g => g.name == Nat.repr 2021)).length = 1 :=
  claim_C7_amended.2.2.2.2.1 [exMar, exSep] 2021 ⟨exMar, by decide, by decide⟩

/-- The labels of the version growth scan are the input labels in input
order. -/
theorem growthGo_labels (tb ti tm te : Nat) (l : List UpdateRecord) :
    (growthGo tb ti tm te l).labels = l.map versionLabel := by
  induction l generalizing tb ti tm te with
  | nil => rfl
  | cons u rest ih => simp [growthGo, ih]

/-- Every bucket of the version growth scan is the seed plus the sum of
the first k+1 per-record counts, in input order. -/
theorem growthGo_get (tb ti tm te : Nat) (l : List UpdateRecord) :
    ∀ k, k < l.length →
      (growthGo tb ti tm te l).blocks[k]?
          = some (tb + ((l.take (k+1)).map (fun u => u.added.blocks.length)).sum) ∧
      (growthGo tb ti tm te l).items[k]?
          = some (ti + ((l.take (k+1)).map (fun u => u.added.items.length)).sum) ∧
      (growthGo tb ti tm te l).mobs[k]?
          = some (tm + ((l.take (k+1)).map (fun u => u.added.mobs.length)).sum) ∧
      (growthGo tb ti tm te l).effects[k]?
          = some (te + ((l.take (k+1)).map (fun u => u.added.effects.length)).sum) := by
  induction l generalizing tb ti tm te with
  | nil => intro k hk; exact absurd hk (by simp)
  | cons u rest ih =>
    intro k hk
    cases k with
    | zero => refine ⟨?_, ?_, ?_, ?_⟩ <;> simp [growthGo]
    | succ k =>
      have hk' : k < rest.length := by simpa using hk
      obtain ⟨hb, hi, hm, he⟩ := ih (tb + u.added.blocks.length) (ti + u.added.items.length)
        (tm + u.added.mobs.length) (te + u.added.effects.length) k hk'
      refine ⟨?_, ?_, ?_, ?_⟩ <;>
        simp [growthGo, hb, hi, hm, he, Nat.add_assoc]

/-- The labels of the year growth scan are the decimal year keys in
scan order. -/
theorem growthYearGo_labels (updates : List UpdateRecord) (tb ti tm te : Nat) (ys : List Nat) :
    (growthYearGo updates tb ti tm te ys).labels = ys.map Nat.repr := by
  induction ys generalizing tb ti tm te with
  | nil => rfl
  | cons y rest ih => simp [growthYearGo, ih]

/-- Every bucket of the year growth scan is the seed plus the sum of the
first k+1 per-year totals, in label order. -/
theorem growthYearGo_get (updates : List UpdateRecord) (tb ti tm te : Nat) (ys : List Nat) :
    ∀ k, k < ys.length →
      (growthYearGo updates tb ti tm te ys).blocks[k]?
          = some (tb + ((ys.take (k+1)).map (fun y => yearTypeCount updates y .blocks)).sum) ∧
      (growthYearGo updates tb ti tm te ys).items[k]?
          = some (ti + ((ys.take (k+1)).map (fun y => yearTypeCount updates y .items)).sum) ∧
      (growthYearGo updates tb ti tm te ys).mobs[k]?
          = some (tm + ((ys.take (k+1)).map (fun y => yearTypeCount updates y .mobs)).sum) ∧
      (growthYearGo updates tb ti tm te ys).effects[k]?
          = some (te + ((ys.take (k+1)).map (fun y => yearTypeCount updates y .effects)).sum) := by
  induction ys generalizing tb ti tm te with
  | nil => intro k hk; exact absurd hk (by simp)
  | cons y rest ih =>
    intro k hk
    cases k with
    | zero => refine ⟨?_, ?_, ?_, ?_⟩ <;> simp [growthYearGo]
    | succ k =>
      have hk' : k < rest.length := by simpa using hk
      obtain ⟨hb, hi, hm, he⟩ := ih (tb + yearTypeCount updates y .blocks)
        (ti + yearTypeCount updates y .items) (tm + yearTypeCount updates y .mobs)
        (te + yearTypeCount updates y .effects) k hk'
      refine ⟨?_, ?_, ?_, ?_⟩ <;>
        simp [growthYearGo, hb, hi, hm, he, Nat.add_assoc]

/-- digitChar is strictly monotone on decimal digits. -/
theorem digitChar_lt (d e : Nat) (hd : d < 10) (he : e < 10) (h : d < e) :
    Nat.digitChar d < Nat.digitChar e := by
  interval_cases d <;> interval_cases e <;> first | omega | decide

/-- The four digit characters of a four-digit number. -/
theorem natChars_four (n : Nat) (h1 : 1000 ≤ n) (h2 : n ≤ 9999) :
    natChars n = [Nat.digitChar (n / 1000), Nat.digitChar (n / 100 % 10),
                  Nat.digitChar (n / 10 % 10), Nat.digitChar (n % 10)] := by
  rw [natChars, dif_neg (by omega : ¬ n < 10),
      natChars, dif_neg (by omega : ¬ n / 10 < 10),
      natChars, dif_neg (by omega : ¬ n / 10 / 10 < 10),
      natChars, dif_pos (by omega : n / 10 / 10 / 10 < 10)]
  have e1 : n / 10 / 10 / 10 = n / 1000 := by omega
  have e2 : n / 10 / 10 % 10 = n / 100 % 10 := by omega
  rw [e1, e2]
  rfl

/-- Decimal printing is strictly monotone on four-digit numbers. -/
theorem repr_lt_of_four (a b : Nat) (ha1 : 1000 ≤ a) (ha2 : a ≤ 9999)
    (hb1 : 1000 ≤ b) (hb2 : b ≤ 9999) (hab : a < b) : Nat.repr a < Nat.repr b := by
  rw [repr_eq_natChars, repr_eq_natChars]
  apply String.lt_iff_toList_lt.mpr
  show List.Lex (fun c d => c < d) (natChars a).asString.toList (natChars b).asString.toList
  rw [List.toList_asString, List.toList_asString,
      natChars_four a ha1 ha2, natChars_four b hb1 hb2]
  rcases Nat.lt_trichotomy (a / 1000) (b / 1000) with h1 | h1 | h1
  · exact List.Lex.rel (digitChar_lt _ _ (by omega) (by omega) h1)
  · rw [h1]
    apply List.Lex.cons
    rcases Nat.lt_trichotomy (a / 100 % 10) (b / 100 % 10) with h2' | h2' | h2'
    · exact List.Lex.rel (digitChar_lt _ _ (by omega) (by omega) h2')
    · rw [h2']
      apply List.Lex.cons
      rcases Nat.lt_trichotomy (a / 10 % 10) (b / 10 % 10) with h3 | h3 | h3
      · exact List.Lex.rel (digitChar_lt _ _ (by omega) (by omega) h3)
      · rw [h3]
        apply List.Lex.cons
        have h4 : a % 10 < b % 10 := by omega
        exact List.Lex.rel (digitChar_lt _ _ (by omega) (by omega) h4)
      · exact absurd h3 (by omega)
    · exact absurd h2' (by omega)
  · exact absurd h1 (by omega)

/-- On four-digit numbers the decimal string order is the numeric order. -/
theorem reprLeRel_iff_of_four (a b : Nat) (ha1 : 1000 ≤ a) (ha2 : a ≤ 9999)
    (hb1 : 1000 ≤ b) (hb2 : b ≤ 9999) : reprLeRel a b ↔ a ≤ b := by
  unfold reprLeRel
  constructor
  · intro h
    by_contra hab
    push_neg at hab
    exact absurd h (not_le.mpr (repr_lt_of_four b a hb1 hb2 ha1 ha2 hab))
  · intro h
    rcases Nat.eq_or_lt_of_le h with he | hlt
    · rw [he]
    · exact le_of_lt (repr_lt_of_four a b ha1 ha2 hb1 hb2 hlt)

instance : IsTotal Nat reprLeRel := ⟨fun a b => le_total (Nat.repr a) (Nat.repr b)⟩

instance : IsTrans Nat reprLeRel := ⟨fun _ _ _ => le_trans⟩

/-- Membership in the string-sorted year-key list is having a
contributing record. -/
theorem mem_sortedYearKeys (updates : List UpdateRecord) (y : Nat) :
    y ∈ sortedYearKeys updates ↔ ∃ r ∈ updates, recYear r = some y := by
  unfold sortedYearKeys
  rw [(List.perm_insertionSort reprLeRel _).mem_iff, List.mem_dedup, List.mem_filterMap]

/-- C6 counterexample. getGrowthByVersion scans in input order: on the
newest-first display list the first cumulative bucket is the newest
record's count, not the chronologically earliest period's. -/
theorem claim_C6_counterexample :
    sortUpdates [exOldG, exNewG] = [exNewG, exOldG] ∧
    (getGrowthByVersion [exNewG, exOldG]).blocks = [2, 3] ∧
    (getGrowthByVersion [exOldG, exNewG]).blocks = [1, 3] ∧
    exOldG.added.blocks.length = 1 := by
  refine ⟨by decide, by decide, by decide, by decide⟩

/-- C6, amended. Both growth scans are running sums in scan order: the
k-th bucket of getGrowthByVersion is the sum of the first k+1 per-record
counts in the order the input list supplies them (so ascending
chronological order holds only if the caller passes the reverse of the
newest-first display list, whose reversal is indeed ascending), and the
k-th bucket of getGrowthByYear is the sum of the first k+1 per-year
totals over the year labels in decimal-string order, which agrees with
ascending numeric order whenever all year keys have four digits. -/
theorem claim_C6_amended :
    (∀ (updates : List UpdateRecord) (k : Nat), k < updates.length →
      (getGrowthByVersion updates).blocks[k]?
          = some (((updates.take (k+1)).map (fun u => u.added.blocks.length)).sum) ∧
      (getGrowthByVersion updates).items[k]?
          = some (((updates.take (k+1)).map (fun u => u.added.items.length)).sum) ∧
      (getGrowthByVersion updates).mobs[k]?
          = some (((updates.take (k+1)).map (fun u => u.added.mobs.length)).sum) ∧
      (getGrowthByVersion updates).effects[k]?
          = some (((updates.take (k+1)).map (fun u => u.added.effects.length)).sum)) ∧
    (∀ updates : List UpdateRecord,
      (getGrowthByVersion updates).labels = updates.map versionLabel) ∧
    (∀ l : List UpdateRecord,
      ((sortUpdates l).reverse).Pairwise (fun a b => cmpUpdates b a ≤ 0)) ∧
    (∀ (updates : List UpdateRecord) (k : Nat), k < (sortedYearKeys updates).length →
      (getGrowthByYear updates).blocks[k]?
          = some ((((sortedYearKeys updates).take (k+1)).map
              (fun y => yearTypeCount updates y .blocks)).sum) ∧
      (getGrowthByYear updates).items[k]?
          = some ((((sortedYearKeys updates).take (k+1)).map
              (fun y => yearTypeCount updates y .items)).sum) ∧
      (getGrowthByYear updates).mobs[k]?
          = some ((((sortedYearKeys updates).take (k+1)).map
              (fun y => yearTypeCount updates y .mobs)).sum) ∧
      (getGrowthByYear updates).effects[k]?
          = some ((((sortedYearKeys updates).take (k+1)).map
              (fun y => yearTypeCount updates y .effects)).sum)) ∧
    (∀ updates : List UpdateRecord,
      (getGrowthByYear updates).labels = (sortedYearKeys updates).map Nat.repr) ∧
    (∀ updates : List UpdateRecord, (sortedYearKeys updates).Pairwise reprLeRel) ∧
    (∀ updates : List UpdateRecord,
      (∀ y ∈ sortedYearKeys updates, 1000 ≤ y ∧ y ≤ 9999) →
      (sortedYearKeys updates).Pairwise (fun a b => a ≤ b)) := by
  refine ⟨?_, ?_, ?_, ?_, ?_, ?_, ?_⟩
  · intro updates k hk
    have h := growthGo_get 0 0 0 0 updates k hk
    simpa [getGrowthByVersion] using h
  · intro updates
    exact growthGo_labels 0 0 0 0 updates
  · intro l
    rw [List.pairwise_reverse]
    exact sortUpdates_pairwise l
  · intro updates k hk
    have h := growthYearGo_get updates 0 0 0 0 (sortedYearKeys updates) k hk
    simpa [getGrowthByYear] using h
  · intro updates
    exact growthYearGo_labels updates 0 0 0 0 (sortedYearKeys updates)
  · intro updates
    exact List.sorted_insertionSort reprLeRel _
  · intro updates h
    have hs : (sortedYearKeys updates).Pairwise reprLeRel :=
      List.sorted_insertionSort reprLeRel _
    exact hs.imp_of_mem (fun ha hb hr =>
      (reprLeRel_iff_of_four _ _ (h _ ha).1 (h _ ha).2 (h _ hb).1 (h _ hb).2).mp hr)

/-- C6 witness: in the two-record example the second cumulative bucket is
the total of both records, and both year keys have four digits, so the
year labels are numerically ascending. -/
theorem claim_C6_witness :
    (getGrowthByVersion [exNewG, exOldG]).blocks[1]?
        = some ((([exNewG, exOldG].take 2).map (fun u => u.added.blocks.length)).sum) ∧
    (sortedYearKeys [exNewG, exOldG]).Pairwise (fun a b => a ≤ b) :=
  ⟨(claim_C6_amended.1 [exNewG, exOldG] 1 (by decide)).1,
   claim_C6_amended.2.2.2.2.2.2 [exNewG, exOldG] (by
     intro y hy
     rcases (mem_sortedYearKeys [exNewG, exOldG] y).mp hy with ⟨r, hr, hy2⟩
     have hr2 : r = exNewG ∨ r = exOldG := by simpa using hr
     rcases hr2 with rfl | rfl
     · have e : recYear exNewG = some 2021 := by decide
       rw [e] at hy2
       have h21 := Option.some.inj hy2
       omega
     · have e : recYear exOldG = some 2020 := by decide
       rw [e] at hy2
       have h20 := Option.some.inj hy2
       omega)⟩

end MCUpdates
